import Mathlib

/-!
Shallow embedding of the parking-data consistency core:
the Statistics Fixer (`scripts/fix-statistics.js`), the Config Synchronizer
(second part of the same file), the Parking Data Validator
(`scripts/validate-parking.js`), the Consistency Verifier
(`scripts/verify-consistency.js`), the Backup Manager
(`scripts/backup-manager.js`), the Emergency Recovery ladder and the
Updates Validator / Statistics Monitor (unnamed source parts).

Conventions of the embedding:
* JavaScript numbers that hold parking counts are modelled as `Int`.
* `x || y` on numbers (JS truthiness: `0` is falsy) is `jsOr`.
* `obj.field?.sub || 0` on an optional block is spelled out by matching on the
  `Option`.
* A JavaScript `TypeError` (property access on `undefined`) is modelled with
  `Except Unit`; the scripts catch such errors at the top level and then do
  not write the data file.
* `new Date().toISOString()` is threaded as an explicit `String`/`Int`
  parameter, since it is an external input of each run.
-/

namespace Parkir

/-- The three vehicle types tracked by the system. -/
inductive VT where
  | bus
  | mobil
  | motor
deriving Repr, DecidableEq

/-- JavaScript `a || b` for numbers: `0` is falsy, every other number truthy. -/
def jsOr (a b : Int) : Int := if a = 0 then b else a

/-- JavaScript `s || t` for strings: the empty string is falsy. -/
def jsOrS (a b : String) : String := if a = "" then b else a

/-- A per-vehicle state block of a Data-document location:
`{total, available, last_update, updated_by, status}`. -/
structure VehicleData where
  total : Int
  available : Int
  last_update : String
  updated_by : String
  status : String
deriving Repr, DecidableEq

/-- A location entry of the Data document.  The vehicle blocks are optional
(the scripts guard most accesses with `?.`).  `lastValidated` and
`validationIssues` are the extra fields stamped by `validate-parking.js`. -/
structure DataLoc where
  id : Int
  nama : String
  alamat : String
  koordinat : String
  status : String
  operational_hours : String
  bus : Option VehicleData
  mobil : Option VehicleData
  motor : Option VehicleData
  last_config_sync : String
  config_version : String
  lastValidated : String
  validationIssues : Int
deriving Repr, DecidableEq

/-- Select a vehicle block of a data location. -/
def DataLoc.v (l : DataLoc) : VT → Option VehicleData
  | .bus => l.bus
  | .mobil => l.mobil
  | .motor => l.motor

/-- Replace a vehicle block of a data location. -/
def DataLoc.setV (l : DataLoc) : VT → Option VehicleData → DataLoc
  | .bus, b => { l with bus := b }
  | .mobil, b => { l with mobil := b }
  | .motor, b => { l with motor := b }

/-- `location[vt]?.total || 0` (`|| 0` is the identity on a present integer
total except for `0`, which it maps to `0` as well). -/
def vTotal (o : Option VehicleData) : Int :=
  match o with
  | none => 0
  | some v => jsOr v.total 0

/-- `location[vt]?.available || 0`. -/
def vAvail (o : Option VehicleData) : Int :=
  match o with
  | none => 0
  | some v => jsOr v.available 0

/-- A capacity block `{total}` of a Configuration location. -/
structure CapacityEntry where
  total : Int
deriving Repr, DecidableEq

/-- `capacity : {bus?, mobil?, motor?}` of a Configuration location. -/
structure ConfigCapacity where
  bus : Option CapacityEntry
  mobil : Option CapacityEntry
  motor : Option CapacityEntry
deriving Repr, DecidableEq

/-- Select a capacity block. -/
def ConfigCapacity.v (c : ConfigCapacity) : VT → Option CapacityEntry
  | .bus => c.bus
  | .mobil => c.mobil
  | .motor => c.motor

/-- Replace a capacity block. -/
def ConfigCapacity.setV (c : ConfigCapacity) : VT → Option CapacityEntry → ConfigCapacity
  | .bus, b => { c with bus := b }
  | .mobil, b => { c with mobil := b }
  | .motor, b => { c with motor := b }

/-- A location entry of the Configuration document. -/
structure ConfigLoc where
  id : Int
  code : String
  name : String
  address : String
  coordinates : String
  status : String
  operational_hours : String
  capacity : ConfigCapacity
deriving Repr, DecidableEq

/-- `configLoc.capacity[vt]?.total || 0`. -/
def capT (c : ConfigLoc) (vt : VT) : Int :=
  match c.capacity.v vt with
  | none => 0
  | some e => jsOr e.total 0

/-- The `statistics` section of the Data document (the fields read and
written by the core scripts). -/
structure Statistics where
  total_bus_capacity : Int
  total_mobil_capacity : Int
  total_motor_capacity : Int
  total_available_bus : Int
  total_available_mobil : Int
  total_available_motor : Int
  last_recalculated : String
  recalculated_by : String
  version : String
deriving Repr, DecidableEq

/-- The `metadata` section of the Data document. -/
structure Metadata where
  last_updated : String
  version : String
  total_locations : Int
  operation_name : String
  last_config_sync : String
  config_version : String
  sync_type : String
deriving Repr, DecidableEq

/-- The Data document (`data/parkir-data.json`). -/
structure DataDoc where
  metadata : Metadata
  statistics : Statistics
  locations : List DataLoc
deriving Repr, DecidableEq

/-- The Configuration's derived `total_capacity` block. -/
structure ConfigTotals where
  bus : Int
  mobil : Int
  motor : Int
  total : Int
deriving Repr, DecidableEq

/-- The Configuration document (`config/locations-config.json`). -/
structure ConfigDoc where
  version : String
  locations : List ConfigLoc
  total_capacity : ConfigTotals
  last_sync_from_data : String
  data_version : String
deriving Repr, DecidableEq

/-- The record returned by the flat statistics calculators. -/
structure StatsSums where
  total_bus_capacity : Int
  total_mobil_capacity : Int
  total_motor_capacity : Int
  total_available_bus : Int
  total_available_mobil : Int
  total_available_motor : Int
deriving Repr, DecidableEq

namespace StatisticsFixer

/-- `StatisticsFixer.calculateStatistics` (fix-statistics.js lines 42-63):
starts from a zeroed record and adds `location.{bus,mobil,motor}?.{total,
available} || 0` for each location in order. -/
def calculateStatistics (locations : List DataLoc) : StatsSums :=
  locations.foldl
    (fun stats location =>
      { total_bus_capacity := stats.total_bus_capacity + vTotal location.bus
        total_mobil_capacity := stats.total_mobil_capacity + vTotal location.mobil
        total_motor_capacity := stats.total_motor_capacity + vTotal location.motor
        total_available_bus := stats.total_available_bus + vAvail location.bus
        total_available_mobil := stats.total_available_mobil + vAvail location.mobil
        total_available_motor := stats.total_available_motor + vAvail location.motor })
    { total_bus_capacity := 0, total_mobil_capacity := 0, total_motor_capacity := 0
      total_available_bus := 0, total_available_mobil := 0, total_available_motor := 0 }

end StatisticsFixer

namespace ConfigSyncer

/-- `ConfigSyncer.calculateStatistics` (fix-statistics.js lines 547-568), a
verbatim copy of the Fixer's calculator. -/
def calculateStatistics (locations : List DataLoc) : StatsSums :=
  locations.foldl
    (fun stats location =>
      { total_bus_capacity := stats.total_bus_capacity + vTotal location.bus
        total_mobil_capacity := stats.total_mobil_capacity + vTotal location.mobil
        total_motor_capacity := stats.total_motor_capacity + vTotal location.motor
        total_available_bus := stats.total_available_bus + vAvail location.bus
        total_available_mobil := stats.total_available_mobil + vAvail location.mobil
        total_available_motor := stats.total_available_motor + vAvail location.motor })
    { total_bus_capacity := 0, total_mobil_capacity := 0, total_motor_capacity := 0
      total_available_bus := 0, total_available_mobil := 0, total_available_motor := 0 }

end ConfigSyncer

/-- One `{total, available}` accumulator of the Monitor's calculator. -/
structure MonPair where
  total : Int
  available : Int
deriving Repr, DecidableEq

/-- The accumulator shape of `StatisticsMonitor.calculateFromLocations`:
`{bus: {total, available}, mobil: …, motor: …}`. -/
structure MonAcc where
  bus : MonPair
  mobil : MonPair
  motor : MonPair
deriving Repr, DecidableEq

namespace StatisticsMonitor

/-- `StatisticsMonitor.calculateFromLocations` (monitor script lines 53-70):
a `reduce` over the locations with a nested accumulator. -/
def calculateFromLocations (locations : List DataLoc) : MonAcc :=
  locations.foldl
    (fun acc loc =>
      { bus := { total := acc.bus.total + vTotal loc.bus
                 available := acc.bus.available + vAvail loc.bus }
        mobil := { total := acc.mobil.total + vTotal loc.mobil
                   available := acc.mobil.available + vAvail loc.mobil }
        motor := { total := acc.motor.total + vTotal loc.motor
                   available := acc.motor.available + vAvail loc.motor } })
    { bus := { total := 0, available := 0 }
      mobil := { total := 0, available := 0 }
      motor := { total := 0, available := 0 } }

end StatisticsMonitor

/-- Issues reported by `StatisticsFixer.checkConsistency`; each constructor
carries the data interpolated into the corresponding message string. -/
inductive FixIssue where
  | notFoundInConfig (nama : String)
  | capacityMismatch (nama : String) (vt : VT) (dataTotal configTotal : Int)
  | availableExceeds (nama : String) (vt : VT) (available total : Int)
deriving Repr, DecidableEq

namespace StatisticsFixer

/-- The `configMap` built by `checkConsistency` (lines 72-75): config
locations keyed by `code` (`configMap[loc.code] = loc`, so a later entry
with the same code overrides an earlier one), queried with
`configMap[dataLoc.nama]`. -/
def configMapFind (locs : List ConfigLoc) (key : String) : Option ConfigLoc :=
  (locs.filter (fun c => c.code = key)).getLast?

/-- The `available > total` check-and-clamp of `checkConsistency`
(lines 98-112) for one vehicle block. -/
def clampBlock (nama : String) (vt : VT) (v : VehicleData) :
    List FixIssue × VehicleData :=
  if v.available > v.total then
    ([.availableExceeds nama vt v.available v.total], { v with available := v.total })
  else ([], v)

/-- The body of `checkConsistency`'s `forEach` for one data location
(fix-statistics.js lines 78-113).  An unmatched location yields only the
`not found in config` issue and is returned unchanged.  On a matched
location the code accesses `dataLoc.{bus,mobil,motor}.total` and
`configLoc.capacity.{bus,mobil,motor}.total` without optional chaining, so a
missing block raises a `TypeError`, modelled as `Except.error`. -/
def checkLoc (configLocs : List ConfigLoc) (l : DataLoc) :
    Except Unit (List FixIssue × DataLoc) :=
  match configMapFind configLocs l.nama with
  | none => .ok ([.notFoundInConfig l.nama], l)
  | some c =>
    match l.bus, l.mobil, l.motor,
        c.capacity.bus, c.capacity.mobil, c.capacity.motor with
    | some vb, some vm, some vo, some cb, some cm, some co =>
      let i1 : List FixIssue :=
        if vb.total ≠ cb.total then [.capacityMismatch l.nama .bus vb.total cb.total] else []
      let i2 : List FixIssue :=
        if vm.total ≠ cm.total then [.capacityMismatch l.nama .mobil vm.total cm.total] else []
      let i3 : List FixIssue :=
        if vo.total ≠ co.total then [.capacityMismatch l.nama .motor vo.total co.total] else []
      let r4 := clampBlock l.nama .bus vb
      let r5 := clampBlock l.nama .mobil vm
      let r6 := clampBlock l.nama .motor vo
      .ok (i1 ++ i2 ++ i3 ++ r4.1 ++ r5.1 ++ r6.1,
           { l with bus := some r4.2, mobil := some r5.2, motor := some r6.2 })
    | _, _, _, _, _, _ => .error ()

/-- `checkConsistency`'s `forEach` over all data locations; an exception
aborts the whole run (nothing is written in that case). -/
def checkLocs (configLocs : List ConfigLoc) :
    List DataLoc → Except Unit (List FixIssue × List DataLoc)
  | [] => .ok ([], [])
  | l :: ls =>
    match checkLoc configLocs l with
    | .error e => .error e
    | .ok (is, l') =>
      match checkLocs configLocs ls with
      | .error e => .error e
      | .ok (iss, ls') => .ok (is ++ iss, l' :: ls')

/-- `StatisticsFixer.checkConsistency` (lines 68-116): returns the issue
list and the (mutated-in-place) data document. -/
def checkConsistency (data : DataDoc) (config : ConfigDoc) :
    Except Unit (List FixIssue × DataDoc) :=
  match checkLocs config.locations data.locations with
  | .error e => .error e
  | .ok (issues, locs) => .ok (issues, { data with locations := locs })

/-- `StatisticsFixer.fixMainStatistics` (lines 121-134): overwrite the six
aggregate fields with the recalculated sums and stamp
`last_recalculated`/`recalculated_by`/`version` (spread merge keeps the
remaining statistics fields). -/
def fixMainStatistics (now : String) (data : DataDoc) : DataDoc :=
  let calculated := calculateStatistics data.locations
  { data with statistics :=
    { data.statistics with
      total_bus_capacity := calculated.total_bus_capacity
      total_mobil_capacity := calculated.total_mobil_capacity
      total_motor_capacity := calculated.total_motor_capacity
      total_available_bus := calculated.total_available_bus
      total_available_mobil := calculated.total_available_mobil
      total_available_motor := calculated.total_available_motor
      last_recalculated := now
      recalculated_by := "fix-statistics.js"
      version := "2.0.0" } }

/-- The pure core of `StatisticsFixer.run` (lines 139-198): check/fix
consistency, then fix the main statistics; the result is what is written
back to the data file.  File loading, backup creation and git calls are
outside the data transformation. -/
def run (config : ConfigDoc) (now : String) (data : DataDoc) :
    Except Unit (List FixIssue × DataDoc) :=
  match checkConsistency data config with
  | .error e => .error e
  | .ok (issues, fixedData) => .ok (issues, fixMainStatistics now fixedData)

end StatisticsFixer

/-- Replace the first element satisfying `p` by its image under `f`
(models in-place mutation of the object returned by `Array.find`). -/
def updateFirst {α : Type} (p : α → Bool) (f : α → α) : List α → List α
  | [] => []
  | x :: xs => if p x then f x :: xs else x :: updateFirst p f xs

/-- Update-log entries of `ConfigSyncer.syncConfigToData`; each constructor
carries the data interpolated into the corresponding message string. -/
inductive SyncUpdate where
  | address (old new : String)
  | coordinates (old new : String)
  | status (old new : String)
  | capacity (vt : VT) (old new : Int)
  | availAdjusted (vt : VT) (old new : Int)
  | operationalHours (old new : String)
deriving Repr, DecidableEq

/-- Update entries of `ConfigSyncer.syncDataToConfig`
(`"<name> <vt>: config <old> → <new>"`). -/
inductive ConfigUpdate where
  | capacity (name : String) (vt : VT) (old new : Int)
deriving Repr, DecidableEq

/-- Errors collected by the sync passes. -/
inductive SyncError where
  | notFoundInData (name : String)
  | notFoundInConfig (nama : String)
deriving Repr, DecidableEq

namespace ConfigSyncer

/-- The `['bus','mobil','motor'].forEach` body of `syncConfigToData`
(fix-statistics.js lines 357-395) for one vehicle type: when the config
capacity differs from the data total, initialize a missing block, write the
new total, clamp `available` above the new total, and derive the block
status from the available/capacity ratio. -/
def syncVehicle (now : String) (c : ConfigLoc) (d : DataLoc) (vt : VT) :
    DataLoc × List SyncUpdate :=
  let configCapacity := capT c vt
  let dataTotal := vTotal (d.v vt)
  if configCapacity ≠ dataTotal then
    let base : VehicleData :=
      match d.v vt with
      | none =>
        { total := 0, available := 0, last_update := now
          updated_by := "system", status := "empty" }
      | some b => b
    let b1 := { base with total := configCapacity }
    let adjusted :=
      if b1.available > configCapacity then
        ({ b1 with available := configCapacity },
         [SyncUpdate.availAdjusted vt b1.available configCapacity])
      else (b1, [])
    let b2 := adjusted.1
    let b3 := { b2 with status :=
      if configCapacity = 0 then "not_available"
      else if b2.available = configCapacity then "empty"
      else if b2.available = 0 then "full"
      else "available" }
    (d.setV vt (some b3), [SyncUpdate.capacity vt dataTotal configCapacity] ++ adjusted.2)
  else (d, [])

/-- The address/coordinates/status updates of `syncConfigToData`
(lines 341-354). -/
def syncBasicFields (c : ConfigLoc) (d : DataLoc) : DataLoc × List SyncUpdate :=
  let s1 :=
    if d.alamat ≠ c.address then
      ({ d with alamat := c.address }, [SyncUpdate.address d.alamat c.address])
    else (d, [])
  let d1 := s1.1
  let s2 :=
    if d1.koordinat ≠ c.coordinates then
      ({ d1 with koordinat := c.coordinates },
       [SyncUpdate.coordinates d1.koordinat c.coordinates])
    else (d1, [])
  let d2 := s2.1
  let s3 :=
    if d2.status ≠ c.status then
      ({ d2 with status := c.status }, [SyncUpdate.status d2.status c.status])
    else (d2, [])
  (s3.1, s1.2 ++ s2.2 ++ s3.2)

/-- The whole per-location body of `syncConfigToData`'s `forEach`
(lines 330-412): basic fields, the three vehicle types in order, the
operational-hours update, and the sync-metadata stamp. -/
def syncLoc (version now : String) (c : ConfigLoc) (d : DataLoc) :
    DataLoc × List SyncUpdate :=
  let sB := syncBasicFields c d
  let sb := syncVehicle now c sB.1 .bus
  let sm := syncVehicle now c sb.1 .mobil
  let so := syncVehicle now c sm.1 .motor
  let sO :=
    if so.1.operational_hours ≠ c.operational_hours then
      ({ so.1 with operational_hours := c.operational_hours },
       [SyncUpdate.operationalHours so.1.operational_hours c.operational_hours])
    else (so.1, [])
  ({ sO.1 with last_config_sync := now, config_version := version },
   sB.2 ++ sb.2 ++ sm.2 ++ so.2 ++ sO.2)

/-- The mutable state of the Config→Data `forEach`. -/
structure Pass1State where
  locations : List DataLoc
  updates : List (String × List SyncUpdate)
  errors : List SyncError
deriving Repr, DecidableEq

/-- One config location of the Config→Data `forEach`: `find` the data
location by name (`l.nama === configLoc.name`), record an error when
absent, otherwise mutate the found object in place. -/
def pass1Step (version now : String) (st : Pass1State) (c : ConfigLoc) :
    Pass1State :=
  match st.locations.find? (fun l => l.nama = c.name) with
  | none => { st with errors := st.errors ++ [.notFoundInData c.name] }
  | some d =>
    let r := syncLoc version now c d
    { st with
      locations := updateFirst (fun l => l.nama = c.name) (fun _ => r.1) st.locations
      updates := if r.2.length > 0 then st.updates ++ [(c.name, r.2)] else st.updates }

/-- Result of `syncConfigToData`: the document written to the data file
(written regardless of errors), the update log, the errors and the success
flag (`errors.length === 0`). -/
structure SyncC2DResult where
  data : DataDoc
  updates : List (String × List SyncUpdate)
  errors : List SyncError
  success : Bool
deriving Repr, DecidableEq

/-- `ConfigSyncer.syncConfigToData` (lines 302-457): stamp the sync
metadata, run the per-location `forEach`, recalculate the statistics and
write the document back. -/
def syncConfigToData (config : ConfigDoc) (data : DataDoc) (now : String) :
    SyncC2DResult :=
  let md := { data.metadata with
    last_config_sync := now, config_version := config.version
    sync_type := "config_to_data" }
  let st := config.locations.foldl (pass1Step config.version now)
    ⟨data.locations, [], []⟩
  let stats := calculateStatistics st.locations
  { data :=
      { metadata := md
        statistics :=
          { data.statistics with
            total_bus_capacity := stats.total_bus_capacity
            total_mobil_capacity := stats.total_mobil_capacity
            total_motor_capacity := stats.total_motor_capacity
            total_available_bus := stats.total_available_bus
            total_available_mobil := stats.total_available_mobil
            total_available_motor := stats.total_available_motor
            last_recalculated := now
            recalculated_by := "sync-config.js" }
        locations := st.locations }
    updates := st.updates
    errors := st.errors
    success := st.errors.isEmpty }

/-- The mutable state of the Data→Config `forEach`. -/
structure Pass2State where
  configLocs : List ConfigLoc
  updates : List ConfigUpdate
  errors : List SyncError
deriving Repr, DecidableEq

/-- One vehicle type of `syncDataToConfig`'s loop (lines 496-504): when the
data total differs from `configLoc.capacity[vt]?.total || 0`, the write
`configLoc.capacity[vehicleType].total = dataTotal` throws a `TypeError` if
the capacity block is missing. -/
def pass2Vehicle (d : DataLoc) (c : ConfigLoc) (vt : VT) :
    Except Unit (ConfigLoc × List ConfigUpdate) :=
  let dataTotal := vTotal (d.v vt)
  let configCapacity := capT c vt
  if dataTotal ≠ configCapacity then
    match c.capacity.v vt with
    | none => .error ()
    | some e =>
      .ok ({ c with capacity := c.capacity.setV vt (some { e with total := dataTotal }) },
        [ConfigUpdate.capacity c.name vt configCapacity dataTotal])
  else .ok (c, [])

/-- The three vehicle types of one data location in `syncDataToConfig`. -/
def pass2Loc (d : DataLoc) (c : ConfigLoc) :
    Except Unit (ConfigLoc × List ConfigUpdate) :=
  match pass2Vehicle d c .bus with
  | .error e => .error e
  | .ok (c1, u1) =>
    match pass2Vehicle d c1 .mobil with
    | .error e => .error e
    | .ok (c2, u2) =>
      match pass2Vehicle d c2 .motor with
      | .error e => .error e
      | .ok (c3, u3) => .ok (c3, u1 ++ u2 ++ u3)

/-- One data location of the Data→Config `forEach` (lines 486-505). -/
def pass2Step (st : Pass2State) (d : DataLoc) : Except Unit Pass2State :=
  match st.configLocs.find? (fun c => c.name = d.nama) with
  | none => .ok { st with errors := st.errors ++ [.notFoundInConfig d.nama] }
  | some c =>
    match pass2Loc d c with
    | .error e => .error e
    | .ok (c', us) =>
      .ok { st with
        configLocs := updateFirst (fun x => x.name = d.nama) (fun _ => c') st.configLocs
        updates := st.updates ++ us }

/-- The Data→Config `forEach` over all data locations. -/
def pass2Fold : List DataLoc → Pass2State → Except Unit Pass2State
  | [], st => .ok st
  | d :: ds, st =>
    match pass2Step st d with
    | .error e => .error e
    | .ok st' => pass2Fold ds st'

/-- `calculateTotalCapacities` (lines 573-583): a reduce with direct
`location.capacity.{bus,mobil,motor}.total` accesses, so a missing capacity
block throws. -/
def calculateTotalCapacities : List ConfigLoc → ConfigTotals →
    Except Unit ConfigTotals
  | [], acc => .ok acc
  | c :: cs, acc =>
    match c.capacity.bus, c.capacity.mobil, c.capacity.motor with
    | some b, some m, some o =>
      calculateTotalCapacities cs
        { bus := acc.bus + jsOr b.total 0
          mobil := acc.mobil + jsOr m.total 0
          motor := acc.motor + jsOr o.total 0
          total := acc.total + (jsOr b.total 0 + jsOr m.total 0 + jsOr o.total 0) }
    | _, _, _ => .error ()

/-- Result of `syncDataToConfig`: the configuration written to the config
file, the update log, the errors and the success flag. -/
structure SyncD2CResult where
  config : ConfigDoc
  updates : List ConfigUpdate
  errors : List SyncError
  success : Bool
deriving Repr, DecidableEq

/-- `ConfigSyncer.syncDataToConfig` (lines 462-542): stamp the reverse-sync
metadata, propagate per-location capacity differences into the
configuration, recompute `total_capacity` and write the configuration
back.  A thrown `TypeError` aborts the run before the write. -/
def syncDataToConfig (config : ConfigDoc) (data : DataDoc) (now : String) :
    Except Unit SyncD2CResult :=
  let c0 := { config with
    last_sync_from_data := now, data_version := data.metadata.version }
  match pass2Fold data.locations ⟨c0.locations, [], []⟩ with
  | .error e => .error e
  | .ok st =>
    match calculateTotalCapacities st.configLocs ⟨0, 0, 0, 0⟩ with
    | .error e => .error e
    | .ok totals =>
      .ok { config := { c0 with locations := st.configLocs, total_capacity := totals }
            updates := st.updates
            errors := st.errors
            success := st.errors.isEmpty }

/-- The configuration file content after attempting `syncDataToConfig`: on
an exception nothing is written, so the previously written configuration
(the one passed in) remains on disk. -/
def configOnDiskAfterD2C (config : ConfigDoc) (data : DataDoc) (now : String) :
    ConfigDoc :=
  match syncDataToConfig config data now with
  | .error _ => config
  | .ok r => r.config

/-- Inconsistencies reported by `ConfigSyncer.validateSync`. -/
inductive Inconsistency where
  | countMismatch (configCount dataCount : Nat)
  | missingInData (name : String)
  | capacityMismatch (name : String) (vt : VT) (configCapacity dataTotal : Int)
  | addressMismatch (name : String)
  | coordinatesMismatch (name : String)
  | totalCapacityMismatch (vt : VT) (configTotal dataTotal : Int)
deriving Repr, DecidableEq

/-- The per-config-location checks of `validateSync` (lines 635-662):
capacity per vehicle type, address, coordinates. -/
def validateLoc (data : DataDoc) (c : ConfigLoc) : List Inconsistency :=
  match data.locations.find? (fun l => l.nama = c.name) with
  | none => [.missingInData c.name]
  | some d =>
    (if capT c .bus ≠ vTotal (d.v .bus) then
      [.capacityMismatch c.name .bus (capT c .bus) (vTotal (d.v .bus))] else []) ++
    (if capT c .mobil ≠ vTotal (d.v .mobil) then
      [.capacityMismatch c.name .mobil (capT c .mobil) (vTotal (d.v .mobil))] else []) ++
    (if capT c .motor ≠ vTotal (d.v .motor) then
      [.capacityMismatch c.name .motor (capT c .motor) (vTotal (d.v .motor))] else []) ++
    (if c.address ≠ d.alamat then [.addressMismatch c.name] else []) ++
    (if c.coordinates ≠ d.koordinat then [.coordinatesMismatch c.name] else [])

/-- `ConfigSyncer.validateSync` (lines 617-700), the non-mutating audit:
location count, per-location checks, aggregate total-capacity checks. -/
def validateSync (config : ConfigDoc) (data : DataDoc) : List Inconsistency :=
  (if config.locations.length ≠ data.locations.length then
    [.countMismatch config.locations.length data.locations.length] else []) ++
  (config.locations.map (validateLoc data)).flatten ++
  (if config.total_capacity.bus ≠ data.statistics.total_bus_capacity then
    [.totalCapacityMismatch .bus config.total_capacity.bus
      data.statistics.total_bus_capacity] else []) ++
  (if config.total_capacity.mobil ≠ data.statistics.total_mobil_capacity then
    [.totalCapacityMismatch .mobil config.total_capacity.mobil
      data.statistics.total_mobil_capacity] else []) ++
  (if config.total_capacity.motor ≠ data.statistics.total_motor_capacity then
    [.totalCapacityMismatch .motor config.total_capacity.motor
      data.statistics.total_motor_capacity] else [])

/-- The locations component of the Config→Data pass, in isolation. -/
def pass1Locs (version now : String) (cs : List ConfigLoc) (ls : List DataLoc) :
    List DataLoc :=
  cs.foldl (fun ls c =>
    match ls.find? (fun l => l.nama = c.name) with
    | none => ls
    | some d => updateFirst (fun l => l.nama = c.name) (fun _ => (syncLoc version now c d).1) ls) ls

/-- Recognizer for the per-location capacity-mismatch entries (the
inconsistency class claim C4 quantifies over). -/
def isCapacityMismatch : Inconsistency → Bool
  | .capacityMismatch _ _ _ _ => true
  | _ => false

end ConfigSyncer

/-- Issues recorded by `ParkingDataValidator.processVehicleType`; each
constructor carries the data interpolated into the message string. -/
inductive VIssue where
  | totalMismatch (vt : VT) (total configCapacity : Int)
  | negativeAvailable (vt : VT) (available : Int)
  | availableExceedsTotal (vt : VT) (available total : Int)
deriving Repr, DecidableEq

/-- Fix entries recorded by `ParkingDataValidator.processVehicleType`. -/
inductive VFix where
  | createdMissing (vt : VT)
  | fixedTotalToConfig (vt : VT) (configCapacity : Int)
  | fixedNegativeAvailable (vt : VT)
  | fixedAvailableToTotal (vt : VT) (total : Int)
  | updated (vt : VT) (oldTotal newTotal oldAvailable newAvailable : Int)
deriving Repr, DecidableEq

/-- Per-location issues of `validate-parking.js` (`processData`): the
`Location ID … not found in config` entry plus the vehicle-level issues. -/
inductive ValIssue where
  | idNotFound (id : Int)
  | vehicle (vi : VIssue)
deriving Repr, DecidableEq

namespace ParkingDataValidator

/-- `parseNumber` (validate-parking.js lines 490-504) restricted to integer
inputs: `Math.max(0, Math.round(num))`; rounding is the identity on
integers. -/
def parseNumber (v : Int) : Int := max 0 v

/-- `configLocation?.capacity?.[vehicleType]?.total || 0` (line 452). -/
def cfgCapOf (configLocation : Option ConfigLoc) (vt : VT) : Int :=
  match configLocation with
  | none => 0
  | some c => capT c vt

/-- Result of `processVehicleType`: the written vehicle block plus the
recorded issues and fixes. -/
structure PVTResult where
  vehicleData : VehicleData
  issues : List VIssue
  fixes : List VFix
deriving Repr, DecidableEq

/-- `ParkingDataValidator.processVehicleType` (lines 433-485).  `mode` and
`force` come from the CLI configuration (`mode` defaults to `"strict"`).
The steps, in source order: materialize a missing block; parse
`total`/`available` through `parseNumber`; compare the parsed total against
`configLocation?.capacity?.[vt]?.total || 0` and rewrite the stored total in
force/fix mode; the `available < 0` and `available > total` checks on the
parsed values; the two `x = x || y` update lines; the final
changed-values fix entry. -/
def processVehicleType (mode : String) (force : Bool)
    (configLocation : Option ConfigLoc) (vt : VT)
    (vd0 : Option VehicleData) : PVTResult :=
  let ensure : VehicleData × List VFix :=
    match vd0 with
    | none =>
      ({ total := 0, available := 0, last_update := "", updated_by := ""
         status := "" }, [.createdMissing vt])
    | some v => (v, [])
  let vd := ensure.1
  let originalTotal := vd.total
  let originalAvailable := vd.available
  let total := parseNumber vd.total
  let available := parseNumber vd.available
  let configCapacity : Int := cfgCapOf configLocation vt
  let step1 : VehicleData × List VIssue × List VFix :=
    if configCapacity > 0 ∧ total ≠ configCapacity then
      if force ∨ mode = "fix" then
        ({ vd with total := configCapacity },
         [.totalMismatch vt total configCapacity],
         [.fixedTotalToConfig vt configCapacity])
      else (vd, [.totalMismatch vt total configCapacity], [])
    else (vd, [], [])
  let vd1 := step1.1
  let step2 : VehicleData × List VIssue × List VFix :=
    if available < 0 then
      ({ vd1 with available := 0 }, [.negativeAvailable vt available],
       [.fixedNegativeAvailable vt])
    else (vd1, [], [])
  let vd2 := step2.1
  let step3 : VehicleData × List VIssue × List VFix :=
    if available > total then
      ({ vd2 with available := total }, [.availableExceedsTotal vt available total],
       [.fixedAvailableToTotal vt total])
    else (vd2, [], [])
  let vd3 := step3.1
  let vd4 := { vd3 with total := jsOr vd3.total total }
  let vd5 := { vd4 with available := jsOr vd4.available (min available vd4.total) }
  let fix4 : List VFix :=
    if originalTotal ≠ vd5.total ∨ originalAvailable ≠ vd5.available then
      [.updated vt originalTotal vd5.total originalAvailable vd5.available]
    else []
  { vehicleData := vd5
    issues := step1.2.1 ++ step2.2.1 ++ step3.2.1
    fixes := ensure.2 ++ step1.2.2 ++ step2.2.2 ++ step3.2.2 ++ fix4 }

/-- One iteration of `processData`'s location loop (lines 353-419): find the
configuration entry by `id`, run `processVehicleType` for bus, mobil and
motor (each writes its block back into the location), then stamp
`lastValidated` and `validationIssues`. -/
def processLocation (mode : String) (force : Bool)
    (configLocs : List ConfigLoc) (nowIso : String) (l : DataLoc) :
    DataLoc × List ValIssue × List VFix :=
  let configLocation := configLocs.find? (fun c => c.id = l.id)
  let i0 : List ValIssue :=
    match configLocation with
    | none => [.idNotFound l.id]
    | some _ => []
  let rb := processVehicleType mode force configLocation .bus l.bus
  let rm := processVehicleType mode force configLocation .mobil l.mobil
  let ro := processVehicleType mode force configLocation .motor l.motor
  let issues := i0 ++ (rb.issues.map .vehicle) ++ (rm.issues.map .vehicle) ++
    (ro.issues.map .vehicle)
  let fixes := rb.fixes ++ rm.fixes ++ ro.fixes
  ({ l with
      bus := some rb.vehicleData
      mobil := some rm.vehicleData
      motor := some ro.vehicleData
      lastValidated := nowIso
      validationIssues := Int.ofNat issues.length },
   issues, fixes)

/-- The location-rewriting part of `processData`: the locations list that is
written back in non-dry-run mode, with the accumulated issues and fixes.
The subsequent `updateStatistics` rewrite of the `statistics` section
computes floating-point utilization percentages (`toFixed(1)` strings) and
is not modelled; the location mutations above are complete. -/
def processLocations (mode : String) (force : Bool)
    (configLocs : List ConfigLoc) (nowIso : String) (locs : List DataLoc) :
    List DataLoc × List ValIssue × List VFix :=
  locs.foldr
    (fun l acc =>
      let r := processLocation mode force configLocs nowIso l
      (r.1 :: acc.1, r.2.1 ++ acc.2.1, r.2.2 ++ acc.2.2))
    ([], [], [])

end ParkingDataValidator



/-- Health states of the data file as probed by `checkDataFile`
(recovery script lines 44-97): missing file, empty file, unparseable JSON,
parseable JSON without a `locations` array, or valid. -/
inductive DataFileStatus where
  | missing
  | emptyFile
  | corrupt
  | badStructure
  | good
deriving Repr, DecidableEq

namespace EmergencyRecovery

/-- `checkDataFile`'s `valid` verdict: true exactly for a parseable file
with a `locations` array. -/
def checkValid : DataFileStatus → Bool
  | .good => true
  | _ => false

/-- A backup artifact as the recovery script sees it: `valid` means the
file decompresses and parses so a restore completes; `ts` is the filename
timestamp used by the scan; `payload` is the data-file state produced by
restoring it. -/
structure Backup where
  valid : Bool
  ts : Int
  payload : DataFileStatus
deriving Repr, DecidableEq

/-- Outcome of `git pull` in `recoverFromGitHub`: the pull may throw, or
succeed leaving the data file in some state. -/
inductive GitOutcome where
  | pullFails
  | pullOk (result : DataFileStatus)
deriving Repr, DecidableEq

/-- The ambient file-system state an `autoRecover` invocation sees.
`latestPointer`: `none` when `latest-backup.json` does not exist,
`some none` when it exists but fails to parse, `some (some b)` when it
points at backup `b`.  `scanned` holds the directory entries matching
`backup-compressed-*.json.gz` whose filename timestamp parsed (the `isNaN`
entries are already dropped). -/
structure RecEnv where
  dataFile : DataFileStatus
  latestPointer : Option (Option Backup)
  scanned : List Backup
  git : GitOutcome
deriving Repr, DecidableEq

/-- `getLatestBackup` (lines 102-137): prefer the `latest-backup.json`
pointer, returning null when it fails to parse (no fallback to the scan);
otherwise sort the scanned files by timestamp descending and take the
newest. -/
def getLatestBackup (env : RecEnv) : Option Backup :=
  match env.latestPointer with
  | some (some b) => some b
  | some none => none
  | none => (env.scanned.mergeSort (fun a b => b.ts ≤ a.ts)).head?

/-- `restoreFromBackup` (lines 142-191): decompressing/parsing a corrupt
artifact throws; otherwise the restored payload is written over the data
file and the result reports success. -/
def restoreFromBackup (env : RecEnv) (b : Backup) : Except Unit RecEnv :=
  if b.valid then .ok { env with dataFile := b.payload } else .error ()

/-- `recoverFromGitHub` (lines 425-458): a failed pull is caught and
reported as failure; a successful pull re-probes the data file and
succeeds only if it is now valid. -/
def recoverFromGitHub (env : RecEnv) : Bool × RecEnv :=
  match env.git with
  | .pullFails => (false, env)
  | .pullOk r => (checkValid r, { env with dataFile := r })

/-- `resetToFullCapacity` (lines 320-394): fails when the data file is
missing, and a parse failure or missing `locations` array throws inside
the `try` and is caught as failure; on a valid document every location's
available is reset to its total and the document rewritten. -/
def resetToFullCapacity (env : RecEnv) : Bool × RecEnv :=
  match env.dataFile with
  | .good => (true, env)
  | _ => (false, env)

/-- `createEmergencyData` (lines 196-315): always writes a synthetic valid
document (from the configuration, or the hardcoded fallback location). -/
def createEmergencyData (env : RecEnv) : RecEnv := { env with dataFile := .good }

/-- The rungs of the recovery ladder. -/
inductive Rung where
  | backupRestore
  | githubRecovery
  | capacityReset
  | emergencyData
deriving Repr, DecidableEq

/-- Result of `autoRecover`, extended with the attempt trace: each entry
records an executed rung and whether it succeeded, in execution order. -/
structure RecOutcome where
  needed : Bool
  method : Option Rung
  trace : List (Rung × Bool)
  env : RecEnv
deriving Repr, DecidableEq

/-- Step 5 of `autoRecover` (lines 531-541): create emergency data. -/
def rung4 (env : RecEnv) (tr : List (Rung × Bool)) : RecOutcome :=
  { needed := true, method := some .emergencyData
    trace := tr ++ [(.emergencyData, true)], env := createEmergencyData env }

/-- Step 4 of `autoRecover` (lines 517-529): capacity reset, falling
through to emergency data. -/
def rung3 (env : RecEnv) (tr : List (Rung × Bool)) : RecOutcome :=
  let r := resetToFullCapacity env
  if r.1 then
    { needed := true, method := some .capacityReset
      trace := tr ++ [(.capacityReset, true)], env := r.2 }
  else rung4 r.2 (tr ++ [(.capacityReset, false)])

/-- Step 3 of `autoRecover` (lines 504-515): GitHub recovery, falling
through to the capacity reset. -/
def rung2 (env : RecEnv) (tr : List (Rung × Bool)) : RecOutcome :=
  let r := recoverFromGitHub env
  if r.1 then
    { needed := true, method := some .githubRecovery
      trace := tr ++ [(.githubRecovery, true)], env := r.2 }
  else rung3 r.2 (tr ++ [(.githubRecovery, false)])

/-- `EmergencyRecovery.autoRecover` (lines 463-542): no action when the
data file is valid; otherwise try a backup restore when `getLatestBackup`
finds one (a restore exception falls through), then GitHub recovery, then
the capacity reset, then synthetic emergency data, stopping at the first
success. -/
def autoRecover (env : RecEnv) : RecOutcome :=
  if checkValid env.dataFile then
    { needed := false, method := none, trace := [], env := env }
  else
    match getLatestBackup env with
    | some b =>
      match restoreFromBackup env b with
      | .ok env' =>
        { needed := true, method := some .backupRestore
          trace := [(.backupRestore, true)], env := env' }
      | .error _ => rung2 env [(.backupRestore, false)]
    | none => rung2 env []

end EmergencyRecovery

/-- Environment for the C5 witness: data file missing, a valid backup
reachable through the latest-backup pointer. -/
def c5Env : EmergencyRecovery.RecEnv :=
  { dataFile := .missing
    latestPointer := some (some { valid := true, ts := 5, payload := .good })
    scanned := [], git := .pullFails }

/-- Shorthand for building a vehicle block in concrete test documents. -/
def mkVehicle (total available : Int) : VehicleData :=
  { total := total, available := available
    last_update := "", updated_by := "", status := "" }

/-- Shorthand for building a data location in concrete test documents. -/
def mkDataLoc (id : Int) (nama : String)
    (bus mobil motor : Option VehicleData) : DataLoc :=
  { id := id, nama := nama, alamat := "", koordinat := "", status := "open"
    operational_hours := "", bus := bus, mobil := mobil, motor := motor
    last_config_sync := "", config_version := "", lastValidated := ""
    validationIssues := 0 }

/-- Shorthand for building a configuration location in concrete test
documents. -/
def mkConfigLoc (id : Int) (code name : String)
    (bus mobil motor : Option CapacityEntry) : ConfigLoc :=
  { id := id, code := code, name := name, address := "", coordinates := ""
    status := "open", operational_hours := ""
    capacity := { bus := bus, mobil := mobil, motor := motor } }

/-- Shorthand for a zeroed statistics section in concrete test documents. -/
def mkStats0 : Statistics :=
  { total_bus_capacity := 0, total_mobil_capacity := 0
    total_motor_capacity := 0, total_available_bus := 0
    total_available_mobil := 0, total_available_motor := 0
    last_recalculated := "", recalculated_by := "", version := "1.0.0" }

/-- Shorthand for a metadata section in concrete test documents. -/
def mkMeta (total_locations : Int) : Metadata :=
  { last_updated := "t0", version := "1.0.0"
    total_locations := total_locations
    operation_name := "Ops", last_config_sync := ""
    config_version := "", sync_type := "" }

/-- Concrete configuration for the C2 scenario: SENOPATI with capacities
bus 62 / mobil 200 / motor 0. -/
def c2Config : ConfigDoc :=
  { version := "1.0", locations :=
      [mkConfigLoc 1 "SENOPATI" "SENOPATI" (some ⟨62⟩) (some ⟨200⟩) (some ⟨0⟩)]
    total_capacity := ⟨62, 200, 0, 262⟩
    last_sync_from_data := "", data_version := "" }

/-- Concrete data for the C2 scenario: SENOPATI with mobil total 200 and
available 250. -/
def c2Data : DataDoc :=
  { metadata := mkMeta 1, statistics := mkStats0
    locations := [mkDataLoc 1 "SENOPATI"
      (some (mkVehicle 62 62)) (some (mkVehicle 200 250)) (some (mkVehicle 0 0))] }

/-- Concrete configuration for the C1 witness (same shape as the C2
scenario but owned by C1). -/
def c1Config : ConfigDoc :=
  { version := "1.0", locations :=
      [mkConfigLoc 7 "NGABEAN" "NGABEAN" (some ⟨10⟩) (some ⟨25⟩) (some ⟨40⟩)]
    total_capacity := ⟨10, 25, 40, 75⟩
    last_sync_from_data := "", data_version := "" }

/-- Concrete data for the C1 witness: mobil available 30 exceeds total 25. -/
def c1Data : DataDoc :=
  { metadata := mkMeta 1, statistics := mkStats0
    locations := [mkDataLoc 7 "NGABEAN"
      (some (mkVehicle 10 4)) (some (mkVehicle 25 30)) (some (mkVehicle 40 0))] }

/-- The location written by the Fixer in the C1 witness run. -/
def c1Loc : DataLoc :=
  mkDataLoc 7 "NGABEAN"
    (some (mkVehicle 10 4)) (some (mkVehicle 25 25)) (some (mkVehicle 40 0))

/-- The document written by the Fixer in the C1 witness run. -/
def c1Out : DataDoc :=
  { metadata := mkMeta 1
    statistics :=
      { total_bus_capacity := 10, total_mobil_capacity := 25
        total_motor_capacity := 40, total_available_bus := 4
        total_available_mobil := 25, total_available_motor := 0
        last_recalculated := "T", recalculated_by := "fix-statistics.js"
        version := "2.0.0" }
    locations := [c1Loc] }

/-- Configuration location used by the C3 theorems: bus capacity 10. -/
def c3Cfg : ConfigLoc := mkConfigLoc 9 "C3LOC" "C3LOC" (some ⟨10⟩) none none

/-- Configuration list for the C1 counterexample: SENOPATI with bus
capacity 50. -/
def c1CexCfg : List ConfigLoc :=
  [mkConfigLoc 1 "SENOPATI" "SENOPATI" (some ⟨50⟩) (some ⟨0⟩) (some ⟨0⟩)]

/-- Data locations for the C1 counterexample: SENOPATI with bus total 100
and available 80 (a legal state before the run). -/
def c1CexLocs : List DataLoc :=
  [mkDataLoc 1 "SENOPATI" (some (mkVehicle 100 80)) none none]

/-- Configuration for the C4 counterexample: one location named "A" with
bus capacity 10. -/
def c4Config : ConfigDoc :=
  { version := "1", locations := [mkConfigLoc 1 "A" "A" (some ⟨10⟩) (some ⟨0⟩) (some ⟨0⟩)]
    total_capacity := ⟨10, 0, 0, 10⟩, last_sync_from_data := "", data_version := "" }

/-- Data for the C4 counterexample: two locations sharing the name "A"
with bus totals 10 and 5. -/
def c4Data : DataDoc :=
  { metadata := mkMeta 2, statistics := mkStats0
    locations :=
      [mkDataLoc 1 "A" (some (mkVehicle 10 0)) (some (mkVehicle 0 0)) (some (mkVehicle 0 0)),
       mkDataLoc 2 "A" (some (mkVehicle 5 0)) (some (mkVehicle 0 0)) (some (mkVehicle 0 0))] }

/-- Configuration for the C4 witness (unique names). -/
def c4wConfig : ConfigDoc :=
  { version := "1", locations := [mkConfigLoc 1 "W" "W" (some ⟨3⟩) (some ⟨4⟩) (some ⟨5⟩)]
    total_capacity := ⟨3, 4, 5, 12⟩, last_sync_from_data := "", data_version := "" }

/-- Data for the C4 witness (unique names). -/
def c4wData : DataDoc :=
  { metadata := mkMeta 1, statistics := mkStats0
    locations :=
      [mkDataLoc 1 "W" (some (mkVehicle 7 9)) (some (mkVehicle 4 2)) (some (mkVehicle 5 0))] }

/-- Concrete configuration for the C6 witness. -/
def c6Config : ConfigDoc :=
  { version := "1.0", locations :=
      [mkConfigLoc 3 "ABUBAKAR" "ABUBAKAR" (some ⟨5⟩) (some ⟨80⟩) (some ⟨60⟩)]
    total_capacity := ⟨5, 80, 60, 145⟩
    last_sync_from_data := "", data_version := "" }

/-- Concrete data for the C6 witness: bus available 9 exceeds total 5 and
one location is absent from the configuration. -/
def c6Data : DataDoc :=
  { metadata := mkMeta 2, statistics := mkStats0
    locations :=
      [mkDataLoc 3 "ABUBAKAR"
        (some (mkVehicle 5 9)) (some (mkVehicle 80 20)) (some (mkVehicle 60 60)),
       mkDataLoc 4 "LAINNYA"
        (some (mkVehicle 2 1)) (some (mkVehicle 3 3)) (some (mkVehicle 4 0))] }

/-- The document written by the first Fixer run in the C6 witness. -/
def c6Out : DataDoc :=
  { metadata := mkMeta 2
    statistics :=
      { total_bus_capacity := 7, total_mobil_capacity := 83
        total_motor_capacity := 64, total_available_bus := 6
        total_available_mobil := 23, total_available_motor := 60
        last_recalculated := "T", recalculated_by := "fix-statistics.js"
        version := "2.0.0" }
    locations :=
      [mkDataLoc 3 "ABUBAKAR"
        (some (mkVehicle 5 5)) (some (mkVehicle 80 20)) (some (mkVehicle 60 60)),
       mkDataLoc 4 "LAINNYA"
        (some (mkVehicle 2 1)) (some (mkVehicle 3 3)) (some (mkVehicle 4 0))] }

end Parkir

namespace Parkir

/-- Issues reported by the Consistency Verifier's checks; each constructor
carries the data interpolated into the corresponding message string. -/
inductive VerIssue where
  | locationCountMismatch (configCount dataCount : Nat)
  | configLocMissingInData (name : String)
  | capacityMismatch (name : String) (vt : VT) (configCapacity dataTotal : Int)
  | availableExceedsTotal (name : String) (vt : VT) (available total : Int)
  | coordinatesMismatch (name : String)
  | addressMismatch (name : String)
  | totalCapacityMismatch (vt : VT) (configTotal dataTotal : Int)
  | availableSumMismatch (vt : VT) (calculated reported : Int)
  | missingMetadataField (field : String)
  | invalidVersionFormat (version : String)
  | totalLocationsMismatch (meta : Int) (actual : Nat)
deriving Repr, DecidableEq

namespace ConsistencyVerifier

/-- `verifyStructure` (verify-consistency.js lines 38-65) checks the
presence of `config.locations`, `config.total_capacity`, `data.locations`,
`data.statistics` and `data.metadata`.  In this typed embedding those
fields exist by construction, so the check reports no issues.  (The checks
that this claim exercises are the four below.) -/
def verifyStructure (_config : ConfigDoc) (_data : DataDoc) : List VerIssue := []

/-- `verifyLocationCount` (lines 70-85). -/
def verifyLocationCount (config : ConfigDoc) (data : DataDoc) : Bool :=
  config.locations.length = data.locations.length

/-- The `dataMap` of `verifyIndividualLocations` (lines 99-102): data
locations keyed by `nama`, a later entry overriding an earlier one. -/
def dataMapFind (locs : List DataLoc) (key : String) : Option DataLoc :=
  (locs.filter (fun l => l.nama = key)).getLast?

/-- `verifyLocationCapacity` (lines 136-155). -/
def verifyLocationCapacity (configLoc : ConfigLoc) (dataLoc : DataLoc) :
    List VerIssue :=
  [VT.bus, VT.mobil, VT.motor].foldr
    (fun vt acc =>
      let configCapacity := capT configLoc vt
      let dataTotal := vTotal (dataLoc.v vt)
      let dataAvailable := vAvail (dataLoc.v vt)
      ((if configCapacity ≠ dataTotal then
          [VerIssue.capacityMismatch configLoc.name vt configCapacity dataTotal]
        else []) ++
       (if dataAvailable > dataTotal then
          [VerIssue.availableExceedsTotal configLoc.name vt dataAvailable dataTotal]
        else [])) ++ acc)
    []

/-- `verifyIndividualLocations` (lines 90-131): for every config location,
look it up in the data by name (the `configMap` built alongside is never
used by the loop); a missing location, capacity problems, then coordinate
and address mismatches. -/
def verifyIndividualLocations (config : ConfigDoc) (data : DataDoc) :
    List VerIssue :=
  (config.locations.map (fun configLoc =>
    match dataMapFind data.locations configLoc.name with
    | none => [VerIssue.configLocMissingInData configLoc.name]
    | some dataLoc =>
      verifyLocationCapacity configLoc dataLoc ++
      (if configLoc.coordinates ≠ dataLoc.koordinat then
        [VerIssue.coordinatesMismatch configLoc.name] else []) ++
      (if configLoc.address ≠ dataLoc.alamat then
        [VerIssue.addressMismatch configLoc.name] else []))).flatten

/-- `verifyTotalStatistics` (lines 160-209): `total_capacity` versus the
reported statistics, then per-type available sums recomputed from the
locations versus the reported statistics. -/
def verifyTotalStatistics (config : ConfigDoc) (data : DataDoc) :
    List VerIssue :=
  (if config.total_capacity.bus ≠ data.statistics.total_bus_capacity then
    [VerIssue.totalCapacityMismatch .bus config.total_capacity.bus
      data.statistics.total_bus_capacity] else []) ++
  (if config.total_capacity.mobil ≠ data.statistics.total_mobil_capacity then
    [VerIssue.totalCapacityMismatch .mobil config.total_capacity.mobil
      data.statistics.total_mobil_capacity] else []) ++
  (if config.total_capacity.motor ≠ data.statistics.total_motor_capacity then
    [VerIssue.totalCapacityMismatch .motor config.total_capacity.motor
      data.statistics.total_motor_capacity] else []) ++
  (let calculatedBus := (data.locations.map (fun l => vAvail l.bus)).sum
   let calculatedMobil := (data.locations.map (fun l => vAvail l.mobil)).sum
   let calculatedMotor := (data.locations.map (fun l => vAvail l.motor)).sum
   (if calculatedBus ≠ data.statistics.total_available_bus then
     [VerIssue.availableSumMismatch .bus calculatedBus
       data.statistics.total_available_bus] else []) ++
   (if calculatedMobil ≠ data.statistics.total_available_mobil then
     [VerIssue.availableSumMismatch .mobil calculatedMobil
       data.statistics.total_available_mobil] else []) ++
   (if calculatedMotor ≠ data.statistics.total_available_motor then
     [VerIssue.availableSumMismatch .motor calculatedMotor
       data.statistics.total_available_motor] else []))

/-- The `/^\d+\.\d+\.\d+$/` test of `verifyMetadata`. -/
def isSemver (s : String) : Bool :=
  match s.splitOn "." with
  | [a, b, c] =>
    a ≠ "" && a.all Char.isDigit && b ≠ "" && b.all Char.isDigit &&
      c ≠ "" && c.all Char.isDigit
  | _ => false

/-- `verifyMetadata` (lines 214-238): truthiness of the four required
fields (`0` and the empty string count as missing), the semantic-version
pattern, and `total_locations` versus the actual location count. -/
def verifyMetadata (data : DataDoc) : List VerIssue :=
  let m := data.metadata
  (if m.last_updated = "" then [VerIssue.missingMetadataField "last_updated"] else []) ++
  (if m.version = "" then [VerIssue.missingMetadataField "version"] else []) ++
  (if m.total_locations = 0 then [VerIssue.missingMetadataField "total_locations"] else []) ++
  (if m.operation_name = "" then [VerIssue.missingMetadataField "operation_name"] else []) ++
  (if m.version ≠ "" ∧ ¬ isSemver m.version then
    [VerIssue.invalidVersionFormat m.version] else []) ++
  (if m.total_locations ≠ Int.ofNat data.locations.length then
    [VerIssue.totalLocationsMismatch m.total_locations data.locations.length] else [])

/-- One entry of the `results` array of `ConsistencyVerifier.run`. -/
structure CheckResult where
  name : String
  passed : Bool
  issues : List VerIssue
deriving Repr, DecidableEq

/-- The five checks of `ConsistencyVerifier.run` (lines 320-392) and the
returned `success` flag (`results.every(r => r.passed)`). -/
def run (config : ConfigDoc) (data : DataDoc) : List CheckResult × Bool :=
  let structureIssues := verifyStructure config data
  let r1 : CheckResult :=
    { name := "file_structure", passed := structureIssues.isEmpty
      issues := structureIssues }
  let countPassed := verifyLocationCount config data
  let r2 : CheckResult :=
    { name := "location_count", passed := countPassed
      issues := if countPassed then [] else
        [VerIssue.locationCountMismatch config.locations.length data.locations.length] }
  let locationIssues := verifyIndividualLocations config data
  let r3 : CheckResult :=
    { name := "individual_locations", passed := locationIssues.isEmpty
      issues := locationIssues }
  let statsIssues := verifyTotalStatistics config data
  let r4 : CheckResult :=
    { name := "total_statistics", passed := statsIssues.isEmpty
      issues := statsIssues }
  let metadataIssues := verifyMetadata data
  let r5 : CheckResult :=
    { name := "metadata", passed := metadataIssues.isEmpty
      issues := metadataIssues }
  let results := [r1, r2, r3, r4, r5]
  (results, results.all (fun r => r.passed))

/-- The process behaviour of the CLI entry (lines 449-458): `run()` calls
`process.exit(1)` only when loading either JSON file fails; otherwise the
verifier finishes all checks, returns its result object — which nothing
inspects — and the process terminates normally with exit code 0. -/
def mainEntry (config : Option ConfigDoc) (data : Option DataDoc) :
    Nat × Option (List CheckResult × Bool) :=
  match config, data with
  | some c, some d => (0, some (run c d))
  | _, _ => (1, none)

end ConsistencyVerifier

/-- Config for the C8 counterexample: one location. -/
def c8Config : ConfigDoc :=
  { version := "1", locations := [mkConfigLoc 1 "B" "B" (some ⟨2⟩) (some ⟨0⟩) (some ⟨0⟩)]
    total_capacity := ⟨2, 0, 0, 2⟩, last_sync_from_data := "", data_version := "" }

/-- Data for the C8 counterexample: no locations, so the location-count
check fails while both files load fine. -/
def c8Data : DataDoc :=
  { metadata := mkMeta 1, statistics := mkStats0, locations := [] }

end Parkir

namespace Parkir

/-- A parsed JSON value (the shape `JSON.parse` yields). -/
inductive Json where
  | null
  | bool (b : Bool)
  | num (n : Int)
  | str (s : String)
  | arr (xs : List Json)
  | obj (fields : List (String × Json))
deriving Repr

/-- JavaScript truthiness of a parsed JSON value: `null`, `false`, `0` and
`""` are falsy; objects and arrays (even empty ones) are truthy. -/
def Json.truthy : Json → Bool
  | .null => false
  | .bool b => b
  | .num n => n ≠ 0
  | .str s => s ≠ ""
  | .arr _ => true
  | .obj _ => true

/-- `value[key]` on a parsed JSON value: key lookup on an object (the last
occurrence wins, as in `JSON.parse`), `undefined` (here `none`) on
anything else. -/
def Json.get : Json → String → Option Json
  | .obj fields, k => ((fields.filter (fun f => f.1 = k)).getLast?).map (fun f => f.2)
  | _, _ => none

/-- Truthiness of a possibly-`undefined` JavaScript value. -/
def jsTruthyOpt : Option Json → Bool
  | none => false
  | some v => v.truthy

/-- A backup file as `verifyBackup` probes it: its size on disk and the
result of reading, decompressing (for `.gz` files) and JSON-parsing it
(`none` when any of those steps throws). -/
structure BackupFile where
  size : Nat
  content : Option Json

namespace BackupManager

/-- `BackupManager.verifyBackup` (backup-manager.js lines 298-341) reduced
to its `valid` verdict: a zero-size file is invalid; a read, gunzip or
parse exception is caught and reported invalid; otherwise
`['metadata', 'data'].every(field => data[field])` — a truthiness test on
the two wrapper fields, not a presence test. -/
def verifyBackup (f : BackupFile) : Bool :=
  if f.size = 0 then false
  else
    match f.content with
    | none => false
    | some data =>
      ["metadata", "data"].all (fun field => jsTruthyOpt (data.get field))

end BackupManager

/-- The C9 counterexample file: one byte of content parsing to
`{"metadata": null, "data": {}}` — both wrapper fields are present, but
`metadata` is bound to a falsy value. -/
def c9File : BackupFile :=
  { size := 30
    content := some (.obj [("metadata", .null), ("data", .obj [])]) }

end Parkir


namespace Parkir

/-- JavaScript `String.prototype.trim`: strip leading and trailing
whitespace. -/
def jsTrim (s : String) : String :=
  String.mk (((s.data.dropWhile Char.isWhitespace).reverse.dropWhile
    Char.isWhitespace).reverse)

/-- JavaScript `s.substring(0, n)`. -/
def jsSubstring (s : String) (n : Nat) : String := String.mk (s.data.take n)

/-- The derived location code (`location.nama.replace` of whitespace then
`toUpperCase`, updates validator line 37). -/
def stripSpacesUpper (s : String) : String :=
  String.mk ((s.data.filter (fun c => ¬ c.isWhitespace)).map Char.toUpper)

/-- A raw entry of the pending-updates queue, with JavaScript `undefined`
as `none`; numeric fields restricted to integers. -/
structure PendingUpdate where
  location_id : Option Int
  petugas_name : Option String
  timestamp : Option String
  bus : Option Int
  mobil : Option Int
  motor : Option Int
  notes : Option String
deriving Repr, DecidableEq

/-- Validation errors of `validateAndCleanUpdates`. -/
inductive UErr where
  | missingLocationId
  | missingPetugasName
  | invalidLocationId (id : Int)
  | invalidVehicleValue (vt : VT)
  | invalidTimestamp
deriving Repr, DecidableEq

/-- Validation warnings of `validateAndCleanUpdates`. -/
inductive UWarn where
  | exceedsCapacity (vt : VT) (value maxCapacity : Int)
  | futureTimestamp
  | notesTooLong
deriving Repr, DecidableEq

namespace UpdatesValidator

/-- The ids of the parkir data locations (`this.validLocations`,
line 31). -/
def validLocations (dataLocs : List DataLoc) : List Int :=
  dataLocs.map (fun l => l.id)

/-- One entry of `this.locationMap`. -/
structure LocInfo where
  nama : String
  code : String
  capacity_bus : Int
  capacity_mobil : Int
  capacity_motor : Int
  configCapacity : Option ConfigCapacity
deriving Repr, DecidableEq

/-- The data-side capacity (`locationInfo.capacity[vt]`). -/
def LocInfo.capV (li : LocInfo) : VT → Int
  | .bus => li.capacity_bus
  | .mobil => li.capacity_mobil
  | .motor => li.capacity_motor

/-- Lookup in `this.locationMap` after `loadData` (lines 26-63): built from the
parkir data (later entries with the same id override earlier ones), then
overlaid with `configCapacity` and `code` from a matching config
location. -/
def locationMap (dataLocs : List DataLoc) (configLocs : List ConfigLoc)
    (id : Int) : Option LocInfo :=
  match (dataLocs.filter (fun l => l.id = id)).getLast? with
  | none => none
  | some l =>
    let base : LocInfo :=
      { nama := l.nama, code := stripSpacesUpper l.nama
        capacity_bus := vTotal l.bus, capacity_mobil := vTotal l.mobil
        capacity_motor := vTotal l.motor, configCapacity := none }
    match (configLocs.filter (fun c => c.id = id)).getLast? with
    | none => some base
    | some c =>
      some { base with configCapacity := some c.capacity, code := c.code }

/-- The capacity limit `configCapacity?.[vt]?.total ||
locationInfo.capacity[vt]` (lines 115, 132, 149). -/
def maxCapacityOf (li : LocInfo) (vt : VT) : Int :=
  match li.configCapacity with
  | none => li.capV vt
  | some cc =>
    match cc.v vt with
    | none => li.capV vt
    | some e => jsOr e.total (li.capV vt)

/-- The per-vehicle block of the validation rules (lines 110-159): a
negative value is an error; a value above a positive capacity is a warning
and, outside `--strict` mode, is clamped to the capacity (mutating the
update in place). -/
def checkVehicle (strict : Bool) (li : Option LocInfo) (vt : VT)
    (v : Option Int) : Option Int × List UErr × List UWarn :=
  match v with
  | none => (none, [], [])
  | some b =>
    if b < 0 then (some b, [.invalidVehicleValue vt], [])
    else
      match li with
      | none => (some b, [], [])
      | some info =>
        let maxCapacity := maxCapacityOf info vt
        if maxCapacity > 0 ∧ b > maxCapacity then
          (if ¬ strict then some maxCapacity else some b, [],
           [.exceedsCapacity vt b maxCapacity])
        else (some b, [], [])

/-- Lines 93-95: `!update.location_id || typeof !== number` (an absent id
and the falsy id `0` both fail). -/
def reqLocationId (i : Option Int) : List UErr :=
  match i with
  | none => [.missingLocationId]
  | some i => if i = 0 then [.missingLocationId] else []

/-- Lines 97-99: `!update.petugas_name || typeof !== string` (absent and
the falsy empty string both fail; whitespace-only strings pass). -/
def reqPetugas (p : Option String) : List UErr :=
  match p with
  | none => [.missingPetugasName]
  | some s => if s = "" then [.missingPetugasName] else []

/-- Lines 102-104: a truthy id absent from the parkir data is an error. -/
def locExists (dataLocs : List DataLoc) (i : Option Int) : List UErr :=
  match i with
  | none => []
  | some i =>
    if i ≠ 0 ∧ ¬ (i ∈ validLocations dataLocs) then [.invalidLocationId i]
    else []

/-- Line 107: `this.locationMap[update.location_id]`. -/
def uLocInfo (dataLocs : List DataLoc) (configLocs : List ConfigLoc)
    (i : Option Int) : Option LocInfo :=
  match i with
  | none => none
  | some i => locationMap dataLocs configLocs i

/-- Lines 162-165: a truthy timestamp that fails to parse is an error. -/
def tsError (parseDate : String → Option Int) (t : Option String) :
    List UErr :=
  match t with
  | none => []
  | some s =>
    if s = "" then []
    else match parseDate s with
      | none => [.invalidTimestamp]
      | some _ => []

/-- Lines 166-168: a parsed timestamp in the future is a warning. -/
def tsWarn (parseDate : String → Option Int) (now : Int)
    (t : Option String) : List UWarn :=
  match t with
  | none => []
  | some s =>
    if s = "" then []
    else match parseDate s with
      | none => []
      | some t => if t > now then [.futureTimestamp] else []

/-- Lines 172-175: truthy notes longer than 500 characters are truncated
in place with a warning. -/
def truncNotes (n : Option String) : Option String × List UWarn :=
  match n with
  | none => (none, [])
  | some s =>
    if s ≠ "" ∧ s.length > 500 then (some (jsSubstring s 500), [.notesTooLong])
    else (some s, [])

/-- The validation rules for one queue entry (lines 88-215 up to the
errors/warnings decision): required fields, location existence, the three
vehicle values, the timestamp and the notes-length truncation.  Returns
the errors, the warnings and the (possibly mutated) update.  `parseDate`
models `new Date(s)` (`none` = invalid date) and `now` the current time. -/
def validateOne (strict : Bool) (dataLocs : List DataLoc)
    (configLocs : List ConfigLoc) (parseDate : String → Option Int)
    (now : Int) (u : PendingUpdate) :
    List UErr × List UWarn × PendingUpdate :=
  let li := uLocInfo dataLocs configLocs u.location_id
  let rb := checkVehicle strict li .bus u.bus
  let rm := checkVehicle strict li .mobil u.mobil
  let ro := checkVehicle strict li .motor u.motor
  let ns := truncNotes u.notes
  (reqLocationId u.location_id ++ reqPetugas u.petugas_name ++
     locExists dataLocs u.location_id ++ rb.2.1 ++ rm.2.1 ++ ro.2.1 ++
     tsError parseDate u.timestamp,
   rb.2.2 ++ rm.2.2 ++ ro.2.2 ++ tsWarn parseDate now u.timestamp ++ ns.2,
   { u with bus := rb.1, mobil := rm.1, motor := ro.1, notes := ns.1 })

/-- The cleaned entry written back to the pending-updates file
(lines 177-199). -/
structure CleanedUpdate where
  location_id : Option Int
  location_name : String
  location_code : String
  petugas_name : String
  timestamp : String
  status : String
  validated_at : String
  bus : Option Int
  mobil : Option Int
  motor : Option Int
  notes : Option String
  warnings : List UWarn
deriving Repr, DecidableEq

/-- An entry of the invalid-updates archive (lines 205-211): the original
(possibly mutated) update together with its errors and warnings. -/
structure InvalidEntry where
  original : PendingUpdate
  errors : List UErr
  warnings : List UWarn
  failed_at : String
deriving Repr, DecidableEq

/-- Building the cleaned entry (lines 179-198) from the mutated update. -/
def cleanUpdate (dataLocs : List DataLoc) (configLocs : List ConfigLoc)
    (nowIso : String) (u : PendingUpdate) (warnings : List UWarn) :
    CleanedUpdate :=
  let li := uLocInfo dataLocs configLocs u.location_id
  let idText : String :=
    match u.location_id with
    | none => "undefined"
    | some i => toString i
  { location_id := u.location_id
    location_name :=
      match li with
      | some info => jsOrS info.nama ("Location_" ++ idText)
      | none => "Location_" ++ idText
    location_code :=
      match li with
      | some info => jsOrS info.code ("LOC" ++ idText)
      | none => "LOC" ++ idText
    petugas_name := jsTrim ((u.petugas_name).getD "")
    timestamp :=
      match u.timestamp with
      | none => nowIso
      | some s => jsOrS s nowIso
    status := "pending"
    validated_at := nowIso
    bus := u.bus
    mobil := u.mobil
    motor := u.motor
    notes :=
      match u.notes with
      | none => none
      | some s => if s = "" then none else some (jsTrim s)
    warnings := warnings }

/-- Result of `validateAndCleanUpdates`: the rewritten pending-updates
file content (the valid entries; an empty array when none passed) and the
invalid-updates archive content (written only when non-empty). -/
structure UpdatesResult where
  written : List CleanedUpdate
  archived : List InvalidEntry
deriving Repr, DecidableEq

/-- The left component of a sum, when present. -/
def sumLeft (r : Sum CleanedUpdate InvalidEntry) : Option CleanedUpdate :=
  match r with
  | .inl c => some c
  | .inr _ => none

/-- The right component of a sum, when present. -/
def sumRight (r : Sum CleanedUpdate InvalidEntry) : Option InvalidEntry :=
  match r with
  | .inl _ => none
  | .inr e => some e

/-- The body of the `updates.forEach` loop (lines 88-215): an entry
without errors becomes a cleaned update, any other entry an archive
entry. -/
def validateStep (strict : Bool) (dataLocs : List DataLoc)
    (configLocs : List ConfigLoc) (parseDate : String → Option Int)
    (now : Int) (nowIso : String) (u : PendingUpdate) :
    Sum CleanedUpdate InvalidEntry :=
  let r := validateOne strict dataLocs configLocs parseDate now u
  if r.1 = [] then
    Sum.inl (cleanUpdate dataLocs configLocs nowIso r.2.2 r.2.1)
  else
    Sum.inr { original := r.2.2, errors := r.1, warnings := r.2.1
              failed_at := nowIso }

/-- The routine `UpdatesValidator.validateAndCleanUpdates` (lines 65-242): validate
every entry in order; entries without errors are cleaned and written back,
the rest are archived with their errors. -/
def validateAndCleanUpdates (strict : Bool) (dataLocs : List DataLoc)
    (configLocs : List ConfigLoc) (parseDate : String → Option Int)
    (now : Int) (nowIso : String) (updates : List PendingUpdate) :
    UpdatesResult :=
  let results : List (Sum CleanedUpdate InvalidEntry) :=
    updates.map (validateStep strict dataLocs configLocs parseDate now nowIso)
  { written := results.filterMap sumLeft
    archived := results.filterMap sumRight }

end UpdatesValidator

end Parkir


namespace Parkir

open UpdatesValidator in
/-- Concrete data document location for the pending-updates scenarios. -/
def c10Loc : DataLoc :=
  mkDataLoc 1 "Kolam Retensi" (some (mkVehicle 10 5)) none none

/-- A pending update whose petugas_name is a single space: truthy, so it
passes the required-field check. -/
def c10Upd : PendingUpdate :=
  { location_id := some 1, petugas_name := some " ", timestamp := none
    bus := none, mobil := none, motor := none, notes := none }

/-- A well-formed pending update used to instantiate the partition
invariants. -/
def c10wUpd : PendingUpdate :=
  { location_id := some 1, petugas_name := some "Budi", timestamp := none
    bus := some 3, mobil := none, motor := none, notes := none }

open UpdatesValidator in
/-- The cleaned entry the validator writes for `c10wUpd`. -/
def c10wOut : CleanedUpdate :=
  { location_id := some 1, location_name := "Kolam Retensi"
    location_code := "KOLAMRETENSI", petugas_name := "Budi"
    timestamp := "T", status := "pending", validated_at := "T"
    bus := some 3, mobil := none, motor := none, notes := none
    warnings := [] }

end Parkir

namespace Parkir

theorem fixer_calc_foldl (locations : List DataLoc) (s : StatsSums) :
    locations.foldl
      (fun stats location =>
        { total_bus_capacity := stats.total_bus_capacity + vTotal location.bus
          total_mobil_capacity := stats.total_mobil_capacity + vTotal location.mobil
          total_motor_capacity := stats.total_motor_capacity + vTotal location.motor
          total_available_bus := stats.total_available_bus + vAvail location.bus
          total_available_mobil := stats.total_available_mobil + vAvail location.mobil
          total_available_motor := stats.total_available_motor + vAvail location.motor }) s =
    { total_bus_capacity := s.total_bus_capacity + (locations.map (fun l => vTotal l.bus)).sum
      total_mobil_capacity := s.total_mobil_capacity + (locations.map (fun l => vTotal l.mobil)).sum
      total_motor_capacity := s.total_motor_capacity + (locations.map (fun l => vTotal l.motor)).sum
      total_available_bus := s.total_available_bus + (locations.map (fun l => vAvail l.bus)).sum
      total_available_mobil := s.total_available_mobil + (locations.map (fun l => vAvail l.mobil)).sum
      total_available_motor := s.total_available_motor + (locations.map (fun l => vAvail l.motor)).sum } := by
  induction locations generalizing s with
  | nil => simp
  | cons a as ih =>
    simp only [List.foldl_cons, List.map_cons, List.sum_cons, ih]
    congr 1 <;> ring

theorem monitor_calc_foldl (locations : List DataLoc) (s : MonAcc) :
    locations.foldl
      (fun acc loc =>
        { bus := { total := acc.bus.total + vTotal loc.bus
                   available := acc.bus.available + vAvail loc.bus }
          mobil := { total := acc.mobil.total + vTotal loc.mobil
                     available := acc.mobil.available + vAvail loc.mobil }
          motor := { total := acc.motor.total + vTotal loc.motor
                     available := acc.motor.available + vAvail loc.motor } }) s =
    { bus := { total := s.bus.total + (locations.map (fun l => vTotal l.bus)).sum
               available := s.bus.available + (locations.map (fun l => vAvail l.bus)).sum }
      mobil := { total := s.mobil.total + (locations.map (fun l => vTotal l.mobil)).sum
                 available := s.mobil.available + (locations.map (fun l => vAvail l.mobil)).sum }
      motor := { total := s.motor.total + (locations.map (fun l => vTotal l.motor)).sum
                 available := s.motor.available + (locations.map (fun l => vAvail l.motor)).sum } } := by
  induction locations generalizing s with
  | nil => simp
  | cons a as ih =>
    simp only [List.foldl_cons, List.map_cons, List.sum_cons, ih]
    congr 1 <;> congr 1 <;> ring

/-- C7: the statistics calculator is pure and returns, per vehicle type, the
sum of totals and the sum of availables over all locations (missing blocks
count as zero), and the three copies used by the Fixer, the Syncer and the
Monitor compute identical sums on every input. -/
theorem calculators_agree_and_sum (locations : List DataLoc) :
    StatisticsFixer.calculateStatistics locations =
      ConfigSyncer.calculateStatistics locations ∧
    StatisticsFixer.calculateStatistics locations =
      { total_bus_capacity := (locations.map (fun l => vTotal l.bus)).sum
        total_mobil_capacity := (locations.map (fun l => vTotal l.mobil)).sum
        total_motor_capacity := (locations.map (fun l => vTotal l.motor)).sum
        total_available_bus := (locations.map (fun l => vAvail l.bus)).sum
        total_available_mobil := (locations.map (fun l => vAvail l.mobil)).sum
        total_available_motor := (locations.map (fun l => vAvail l.motor)).sum } ∧
    StatisticsMonitor.calculateFromLocations locations =
      { bus := { total := (locations.map (fun l => vTotal l.bus)).sum
                 available := (locations.map (fun l => vAvail l.bus)).sum }
        mobil := { total := (locations.map (fun l => vTotal l.mobil)).sum
                   available := (locations.map (fun l => vAvail l.mobil)).sum }
        motor := { total := (locations.map (fun l => vTotal l.motor)).sum
                   available := (locations.map (fun l => vAvail l.motor)).sum } } := by
  refine ⟨rfl, ?_, ?_⟩
  · rw [StatisticsFixer.calculateStatistics, fixer_calc_foldl]
    congr 1 <;> ring
  · rw [StatisticsMonitor.calculateFromLocations, monitor_calc_foldl]
    congr 1 <;> congr 1 <;> ring

namespace StatisticsFixer

theorem clampBlock_total (n : String) (vt : VT) (v : VehicleData) :
    (clampBlock n vt v).2.total = v.total := by
  unfold clampBlock
  split <;> rfl

theorem clampBlock_le (n : String) (vt : VT) (v : VehicleData) :
    (clampBlock n vt v).2.available ≤ (clampBlock n vt v).2.total := by
  unfold clampBlock
  split
  · simp
  · simp only
    omega

theorem clampBlock_noop (n : String) (vt : VT) (v : VehicleData)
    (h : v.available ≤ v.total) : clampBlock n vt v = ([], v) := by
  unfold clampBlock
  rw [if_neg (by omega)]

theorem checkLoc_nama (cl : List ConfigLoc) (l : DataLoc) (is : List FixIssue)
    (l' : DataLoc) (h : checkLoc cl l = .ok (is, l')) : l'.nama = l.nama := by
  unfold checkLoc at h
  split at h
  case h_1 hf =>
    simp only [Except.ok.injEq, Prod.mk.injEq] at h
    obtain ⟨-, rfl⟩ := h
    rfl
  case h_2 c hf =>
    split at h
    case h_1 vb vm vo cb cm co hb hm ho hcb hcm hco =>
      simp only [Except.ok.injEq, Prod.mk.injEq] at h
      obtain ⟨-, rfl⟩ := h
      rfl
    case h_2 => exact absurd h (by simp)

theorem checkLoc_idem (cl : List ConfigLoc) (l : DataLoc) (is : List FixIssue)
    (l' : DataLoc) (h : checkLoc cl l = .ok (is, l')) :
    ∃ is', checkLoc cl l' = .ok (is', l') := by
  unfold checkLoc at h
  split at h
  case h_1 hf =>
    simp only [Except.ok.injEq, Prod.mk.injEq] at h
    obtain ⟨-, rfl⟩ := h
    exact ⟨[.notFoundInConfig l.nama], by unfold checkLoc; rw [hf]⟩
  case h_2 c hf =>
    split at h
    case h_2 => exact absurd h (by simp)
    case h_1 vb vm vo cb cm co hb hm ho hcb hcm hco =>
      simp only [Except.ok.injEq, Prod.mk.injEq] at h
      obtain ⟨-, rfl⟩ := h
      refine ⟨(if vb.total ≠ cb.total then
            [FixIssue.capacityMismatch l.nama .bus vb.total cb.total] else []) ++
          (if vm.total ≠ cm.total then
            [FixIssue.capacityMismatch l.nama .mobil vm.total cm.total] else []) ++
          (if vo.total ≠ co.total then
            [FixIssue.capacityMismatch l.nama .motor vo.total co.total] else []) ++
          [] ++ [] ++ [], ?_⟩
      unfold checkLoc
      simp only [hf, hcb, hcm, hco]
      rw [clampBlock_noop _ _ _ (clampBlock_le l.nama .bus vb),
        clampBlock_noop _ _ _ (clampBlock_le l.nama .mobil vm),
        clampBlock_noop _ _ _ (clampBlock_le l.nama .motor vo),
        clampBlock_total l.nama .bus vb, clampBlock_total l.nama .mobil vm,
        clampBlock_total l.nama .motor vo]

theorem checkLocs_idem (cl : List ConfigLoc) (ls : List DataLoc)
    (is : List FixIssue) (ls' : List DataLoc)
    (h : checkLocs cl ls = .ok (is, ls')) :
    ∃ is', checkLocs cl ls' = .ok (is', ls') := by
  induction ls generalizing is ls' with
  | nil =>
    unfold checkLocs at h
    simp only [Except.ok.injEq, Prod.mk.injEq] at h
    obtain ⟨-, rfl⟩ := h
    exact ⟨[], rfl⟩
  | cons l ls ih =>
    unfold checkLocs at h
    split at h
    case h_1 => exact absurd h (by simp)
    case h_2 is₀ l₀ hl =>
      split at h
      case h_1 => exact absurd h (by simp)
      case h_2 iss ls₀ hr =>
        simp only [Except.ok.injEq, Prod.mk.injEq] at h
        obtain ⟨-, rfl⟩ := h
        obtain ⟨is₁, h₁⟩ := checkLoc_idem cl l is₀ l₀ hl
        obtain ⟨is₂, h₂⟩ := ih iss ls₀ hr
        exact ⟨is₁ ++ is₂, by unfold checkLocs; simp only [h₁, h₂]⟩

theorem checkLoc_matched_le (cl : List ConfigLoc) (l : DataLoc)
    (is : List FixIssue) (l' : DataLoc) (h : checkLoc cl l = .ok (is, l'))
    (hm : (configMapFind cl l'.nama).isSome) :
    ∀ vt v, l'.v vt = some v → v.available ≤ v.total := by
  unfold checkLoc at h
  split at h
  case h_1 hf =>
    simp only [Except.ok.injEq, Prod.mk.injEq] at h
    obtain ⟨-, rfl⟩ := h
    rw [hf] at hm
    simp at hm
  case h_2 c hf =>
    split at h
    case h_2 => exact absurd h (by simp)
    case h_1 vb vm vo cb cm co hb hm' ho hcb hcm hco =>
      simp only [Except.ok.injEq, Prod.mk.injEq] at h
      obtain ⟨-, rfl⟩ := h
      intro vt v hv
      cases vt with
      | bus =>
        simp only [DataLoc.v, Option.some.injEq] at hv
        exact hv ▸ clampBlock_le l.nama .bus vb
      | mobil =>
        simp only [DataLoc.v, Option.some.injEq] at hv
        exact hv ▸ clampBlock_le l.nama .mobil vm
      | motor =>
        simp only [DataLoc.v, Option.some.injEq] at hv
        exact hv ▸ clampBlock_le l.nama .motor vo

theorem checkLocs_mem (cl : List ConfigLoc) (ls : List DataLoc)
    (is : List FixIssue) (ls' : List DataLoc)
    (h : checkLocs cl ls = .ok (is, ls')) (x : DataLoc) (hx : x ∈ ls') :
    ∃ l isx, checkLoc cl l = .ok (isx, x) := by
  induction ls generalizing is ls' with
  | nil =>
    unfold checkLocs at h
    simp only [Except.ok.injEq, Prod.mk.injEq] at h
    obtain ⟨-, rfl⟩ := h
    exact absurd hx (by simp)
  | cons l ls ih =>
    unfold checkLocs at h
    split at h
    case h_1 => exact absurd h (by simp)
    case h_2 is₀ l₀ hl =>
      split at h
      case h_1 => exact absurd h (by simp)
      case h_2 iss ls₀ hr =>
        simp only [Except.ok.injEq, Prod.mk.injEq] at h
        obtain ⟨-, rfl⟩ := h
        rcases hx with _ | ⟨_, hx⟩
        · exact ⟨l, is₀, hl⟩
        · exact ih iss ls₀ hr hx

theorem fixMainStatistics_locations (now : String) (d : DataDoc) :
    (fixMainStatistics now d).locations = d.locations := rfl

theorem fixMainStatistics_idem (now : String) (d : DataDoc) :
    fixMainStatistics now (fixMainStatistics now d) = fixMainStatistics now d := rfl

theorem run_ok_destruct (config : ConfigDoc) (now : String) (d : DataDoc)
    (is : List FixIssue) (d' : DataDoc)
    (h : run config now d = .ok (is, d')) :
    ∃ locs, checkLocs config.locations d.locations = .ok (is, locs) ∧
      d' = fixMainStatistics now { d with locations := locs } := by
  cases hc : checkLocs config.locations d.locations with
  | error e =>
    unfold run checkConsistency at h
    rw [hc] at h
    exact absurd h (by simp)
  | ok p =>
    obtain ⟨is₀, locs⟩ := p
    unfold run checkConsistency at h
    rw [hc] at h
    simp only [Except.ok.injEq, Prod.mk.injEq] at h
    obtain ⟨rfl, rfl⟩ := h
    exact ⟨locs, rfl, rfl⟩

end StatisticsFixer

/-- C6: running the Statistics Fixer twice in succession on the same Data
document yields the same document after the second run as after the first
(`new Date()` is threaded as the explicit parameter `now`, so both runs are
taken at the same clock reading; the recomputation itself is idempotent). -/
theorem fixer_run_idempotent (config : ConfigDoc) (now : String)
    (d : DataDoc) (is : List FixIssue) (d₁ : DataDoc)
    (h : StatisticsFixer.run config now d = .ok (is, d₁)) :
    ∃ is₂, StatisticsFixer.run config now d₁ = .ok (is₂, d₁) := by
  obtain ⟨locs, hc, rfl⟩ := StatisticsFixer.run_ok_destruct config now d is d₁ h
  obtain ⟨is₂, h₂⟩ := StatisticsFixer.checkLocs_idem config.locations d.locations is locs hc
  refine ⟨is₂, ?_⟩
  unfold StatisticsFixer.run StatisticsFixer.checkConsistency
  rw [show (StatisticsFixer.fixMainStatistics now
    { d with locations := locs }).locations = locs from rfl, h₂]
  rfl

/-- C6 witness: a concrete run of the Fixer followed by a second run on its
output reproduces the output unchanged. -/
theorem fixer_run_idempotent_witness :
    StatisticsFixer.run c6Config "T" c6Data =
      .ok ([.availableExceeds "ABUBAKAR" .bus 9 5, .notFoundInConfig "LAINNYA"], c6Out) ∧
    ∃ is₂, StatisticsFixer.run c6Config "T" c6Out = .ok (is₂, c6Out) :=
  ⟨by rfl,
   fixer_run_idempotent c6Config "T" c6Data
     [.availableExceeds "ABUBAKAR" .bus 9 5, .notFoundInConfig "LAINNYA"] c6Out (by rfl)⟩

/-- C2: on a Data document whose SENOPATI location has mobil total 200 and
available 250, with the Configuration declaring mobil capacity 200 for that
location, one Fixer run writes mobil available 200, leaves mobil total at
200, and records exactly one issue entry (the mobil over-capacity fix). -/
theorem fixer_senopati_scenario :
    StatisticsFixer.run c2Config "T1" c2Data =
      .ok ([.availableExceeds "SENOPATI" .mobil 250 200],
        { metadata := mkMeta 1
          statistics :=
            { total_bus_capacity := 62, total_mobil_capacity := 200
              total_motor_capacity := 0, total_available_bus := 62
              total_available_mobil := 200, total_available_motor := 0
              last_recalculated := "T1", recalculated_by := "fix-statistics.js"
              version := "2.0.0" }
          locations := [mkDataLoc 1 "SENOPATI"
            (some (mkVehicle 62 62)) (some (mkVehicle 200 200))
            (some (mkVehicle 0 0))] }) := by
  rfl

/-- C1 (amended): after a Statistics Fixer run that completes, every
location whose name matches a Configuration entry's `code` satisfies
`available ≤ total` for each present vehicle block of the written document.
The claim's original statement — `0 ≤ available ≤ total` for *every*
location after *any* core write — fails on the code: the Fixer never clamps
a negative `available`, never clamps locations absent from the
Configuration, and the Validator's fix mode clamps `available` against the
pre-rewrite total (see the counterexample). -/
theorem fixer_matched_available_le_total (config : ConfigDoc) (now : String)
    (d : DataDoc) (is : List FixIssue) (d' : DataDoc)
    (h : StatisticsFixer.run config now d = .ok (is, d'))
    (l : DataLoc) (hl : l ∈ d'.locations)
    (hm : (StatisticsFixer.configMapFind config.locations l.nama).isSome)
    (vt : VT) (v : VehicleData) (hv : l.v vt = some v) :
    v.available ≤ v.total := by
  obtain ⟨locs, hc, rfl⟩ := StatisticsFixer.run_ok_destruct config now d is d' h
  have hl' : l ∈ locs := hl
  obtain ⟨l₀, is₀, h₀⟩ :=
    StatisticsFixer.checkLocs_mem config.locations d.locations is locs hc l hl'
  exact StatisticsFixer.checkLoc_matched_le config.locations l₀ is₀ l h₀ hm vt v hv

/-- C1 witness: a concrete completed Fixer run on which the amended claim's
hypotheses hold and the clamped mobil block satisfies the bound. -/
theorem fixer_matched_available_le_total_witness :
    StatisticsFixer.run c1Config "T" c1Data =
      .ok ([.availableExceeds "NGABEAN" .mobil 30 25], c1Out) ∧
    c1Loc ∈ c1Out.locations ∧
    (StatisticsFixer.configMapFind c1Config.locations c1Loc.nama).isSome ∧
    c1Loc.v .mobil = some (mkVehicle 25 25) ∧
    (mkVehicle 25 25).available ≤ (mkVehicle 25 25).total :=
  ⟨by rfl, List.Mem.head _, by rfl, by rfl,
   fixer_matched_available_le_total c1Config "T" c1Data
     [.availableExceeds "NGABEAN" .mobil 30 25] c1Out (by rfl)
     c1Loc (List.Mem.head _) (by rfl) .mobil (mkVehicle 25 25) (by rfl)⟩

/-- C1 counterexample: the Parking Data Validator in fix mode writes a
location whose bus block has `available = 80 > 50 = total`.  The config
capacity 50 is written over the stored total 100, but the over-capacity
clamp compares the parsed `available` against the *pre-rewrite* total, so
`available` is left at 80 in the written document — refuting the claim that
every written document satisfies `available ≤ total`, precisely in the
"total rewritten to the Configuration's capacity" case the claim singles
out. -/
theorem validator_fix_mode_writes_available_above_total_cex :
    ((ParkingDataValidator.processLocations "fix" false c1CexCfg "T"
        c1CexLocs).1.head?.bind (fun l => l.v .bus)).map
      (fun v => (v.total, v.available)) = some (50, 80) ∧
    ¬((80 : Int) ≤ 50) :=
  ⟨by rfl, by decide⟩

theorem jsOr_self (a : Int) : jsOr a a = a := by
  unfold jsOr
  split <;> rfl

namespace ParkingDataValidator

theorem pvt_strict_clamps (mode : String) (force : Bool)
    (cfg : Option ConfigLoc) (vt : VT) (vd : VehicleData)
    (h : 0 ≤ vd.total) (hmode : ¬(force ∨ mode = "fix"))
    (hex : parseNumber vd.available > vd.total) :
    (processVehicleType mode force cfg vt (some vd)).vehicleData.available = vd.total ∧
      VFix.fixedAvailableToTotal vt vd.total ∈
        (processVehicleType mode force cfg vt (some vd)).fixes := by
  have hpt : max 0 vd.total = vd.total := max_eq_right h
  simp only [processVehicleType, parseNumber, cfgCapOf, hpt] at hex ⊢
  rw [if_neg (show ¬ (max 0 vd.available < 0) by omega), if_pos hex]
  simp only [if_neg hmode]
  split_ifs <;>
    refine ⟨?_, by simp⟩ <;>
    simp only [jsOr_self, jsOr] <;>
    split_ifs <;>
    omega

theorem pvt_fix_rewrites (mode : String) (force : Bool)
    (cfg : Option ConfigLoc) (vt : VT) (vd : VehicleData)
    (h : 0 ≤ vd.total) (hmode : force ∨ mode = "fix")
    (hcap : 0 < cfgCapOf cfg vt) (hne : vd.total ≠ cfgCapOf cfg vt) :
    (processVehicleType mode force cfg vt (some vd)).vehicleData.total = cfgCapOf cfg vt ∧
      VFix.fixedTotalToConfig vt (cfgCapOf cfg vt) ∈
        (processVehicleType mode force cfg vt (some vd)).fixes := by
  have hpt : max 0 vd.total = vd.total := max_eq_right h
  simp only [processVehicleType, parseNumber, hpt]
  rw [if_pos (show cfgCapOf cfg vt > 0 ∧ vd.total ≠ cfgCapOf cfg vt from ⟨hcap, hne⟩),
    if_pos hmode,
    if_neg (show ¬ (max 0 vd.available < 0) by omega)]
  split_ifs <;>
    refine ⟨?_, by simp⟩ <;>
    simp only [jsOr_self, jsOr] <;>
    split_ifs <;>
    omega

theorem pvt_negative_preserved (mode : String) (force : Bool)
    (cfg : Option ConfigLoc) (vt : VT) (vd : VehicleData)
    (h : 0 ≤ vd.total) (hneg : vd.available < 0) :
    (processVehicleType mode force cfg vt (some vd)).vehicleData.available
      = vd.available := by
  have hpt : max 0 vd.total = vd.total := max_eq_right h
  have hpa : max 0 vd.available = 0 := max_eq_left (by omega)
  simp only [processVehicleType, parseNumber, cfgCapOf, hpt, hpa]
  rw [if_neg (show ¬ ((0:Int) < 0) by omega),
    if_neg (show ¬ ((0:Int) > vd.total) by omega)]
  split_ifs <;>
    simp only [jsOr_self, jsOr] <;>
    split_ifs <;>
    omega

end ParkingDataValidator

/-- C3 (amended): for a stored vehicle block with non-negative total,
`processVehicleType` (i) outside force/fix mode clamps a parsed `available`
above the total down to the total and records a fix entry; (ii) in
force/fix mode rewrites a total that differs from a positive configuration
capacity to that capacity and records a fix entry; but (iii) a negative
stored `available` is preserved unchanged — not clamped to 0 as the claim
states, because the negative-value check tests the already-sanitized
`parseNumber` result and the final `available || …` fallback treats the
negative stored value as truthy. -/
theorem processVehicleType_clamp_rewrite_negative (mode : String)
    (force : Bool) (cfg : Option ConfigLoc) (vt : VT) (vd : VehicleData)
    (h : 0 ≤ vd.total) :
    (¬(force ∨ mode = "fix") →
      ParkingDataValidator.parseNumber vd.available > vd.total →
      (ParkingDataValidator.processVehicleType mode force cfg vt
          (some vd)).vehicleData.available = vd.total ∧
        VFix.fixedAvailableToTotal vt vd.total ∈
          (ParkingDataValidator.processVehicleType mode force cfg vt
            (some vd)).fixes) ∧
    ((force ∨ mode = "fix") → 0 < ParkingDataValidator.cfgCapOf cfg vt →
      vd.total ≠ ParkingDataValidator.cfgCapOf cfg vt →
      (ParkingDataValidator.processVehicleType mode force cfg vt
          (some vd)).vehicleData.total = ParkingDataValidator.cfgCapOf cfg vt ∧
        VFix.fixedTotalToConfig vt (ParkingDataValidator.cfgCapOf cfg vt) ∈
          (ParkingDataValidator.processVehicleType mode force cfg vt
            (some vd)).fixes) ∧
    (vd.available < 0 →
      (ParkingDataValidator.processVehicleType mode force cfg vt
          (some vd)).vehicleData.available = vd.available) :=
  ⟨fun hmode hex =>
      ParkingDataValidator.pvt_strict_clamps mode force cfg vt vd h hmode hex,
   fun hmode hcap hne =>
      ParkingDataValidator.pvt_fix_rewrites mode force cfg vt vd h hmode hcap hne,
   fun hneg =>
      ParkingDataValidator.pvt_negative_preserved mode force cfg vt vd h hneg⟩

/-- C3 witness: the over-capacity clamp of the amended claim at a concrete
input (strict mode, stored block total 10 / available 15, config capacity
10). -/
theorem processVehicleType_clamp_rewrite_negative_witness :
    (0 : Int) ≤ (mkVehicle 10 15).total ∧
    ((ParkingDataValidator.processVehicleType "strict" false (some c3Cfg) .bus
        (some (mkVehicle 10 15))).vehicleData.available = (mkVehicle 10 15).total ∧
      VFix.fixedAvailableToTotal .bus (mkVehicle 10 15).total ∈
        (ParkingDataValidator.processVehicleType "strict" false (some c3Cfg) .bus
          (some (mkVehicle 10 15))).fixes) :=
  ⟨by decide,
   (processVehicleType_clamp_rewrite_negative "strict" false (some c3Cfg) .bus
       (mkVehicle 10 15) (by decide)).1 (by decide) (by decide)⟩

/-- C3 counterexample: a stored block `{total: 10, available: -5}` under a
matching config capacity passes through `processVehicleType` unchanged and
with no fix entry — the claim's "a negative available becomes 0, recorded
as a fix entry" is false on the code. -/
theorem processVehicleType_negative_not_clamped_cex :
    ParkingDataValidator.processVehicleType "strict" false (some c3Cfg) .bus
        (some (mkVehicle 10 (-5))) =
      { vehicleData := mkVehicle 10 (-5), issues := [], fixes := [] } ∧
    (mkVehicle 10 (-5)).available ≠ 0 :=
  ⟨by rfl, by decide⟩

end Parkir

namespace Parkir

theorem jsOr_zero (a : Int) : jsOr a 0 = a := by
  unfold jsOr
  split <;> omega

theorem DataLoc.v_setV_same (l : DataLoc) (vt : VT) (b : Option VehicleData) :
    (l.setV vt b).v vt = b := by
  cases vt <;> rfl

theorem DataLoc.v_setV_other (l : DataLoc) (vt vt' : VT) (b : Option VehicleData)
    (h : vt' ≠ vt) : (l.setV vt b).v vt' = l.v vt' := by
  cases vt <;> cases vt' <;> first | rfl | exact absurd rfl h

theorem DataLoc.setV_nama (l : DataLoc) (vt : VT) (b : Option VehicleData) :
    (l.setV vt b).nama = l.nama := by
  cases vt <;> rfl

namespace ConfigSyncer

theorem syncVehicle_total (now : String) (c : ConfigLoc) (d : DataLoc) (vt : VT) :
    vTotal ((syncVehicle now c d vt).1.v vt) = capT c vt := by
  simp only [syncVehicle]
  split
  case isTrue h =>
    rw [DataLoc.v_setV_same]
    simp only [vTotal]
    rw [jsOr_zero]
    split_ifs <;> rfl
  case isFalse h =>
    exact (not_ne_iff.mp h).symm

theorem syncVehicle_v_other (now : String) (c : ConfigLoc) (d : DataLoc)
    (vt vt' : VT) (h : vt' ≠ vt) :
    (syncVehicle now c d vt).1.v vt' = d.v vt' := by
  simp only [syncVehicle]
  split
  · rw [DataLoc.v_setV_other _ _ _ _ h]
  · rfl

theorem syncVehicle_nama (now : String) (c : ConfigLoc) (d : DataLoc) (vt : VT) :
    (syncVehicle now c d vt).1.nama = d.nama := by
  simp only [syncVehicle]
  split
  · rw [DataLoc.setV_nama]
  · rfl

theorem syncBasicFields_v (c : ConfigLoc) (d : DataLoc) (vt : VT) :
    (syncBasicFields c d).1.v vt = d.v vt := by
  simp only [syncBasicFields]
  split_ifs <;> cases vt <;> rfl

theorem syncBasicFields_nama (c : ConfigLoc) (d : DataLoc) :
    (syncBasicFields c d).1.nama = d.nama := by
  simp only [syncBasicFields]
  split_ifs <;> rfl

theorem record_admin_v (x : DataLoc) (a b : String) (vt : VT) :
    ({ x with last_config_sync := a, config_version := b } : DataLoc).v vt = x.v vt := by
  cases vt <;> rfl

theorem record_oph_v (x : DataLoc) (a : String) (vt : VT) :
    ({ x with operational_hours := a } : DataLoc).v vt = x.v vt := by
  cases vt <;> rfl

theorem syncLoc_v_eq (ver now : String) (c : ConfigLoc) (d : DataLoc) (vt : VT) :
    (syncLoc ver now c d).1.v vt =
      (syncVehicle now c
        (syncVehicle now c
          (syncVehicle now c (syncBasicFields c d).1 .bus).1 .mobil).1 .motor).1.v vt := by
  simp only [syncLoc]
  rw [record_admin_v]
  split
  · rw [record_oph_v]
  · rfl

theorem syncLoc_total (ver now : String) (c : ConfigLoc) (d : DataLoc) (vt : VT) :
    vTotal ((syncLoc ver now c d).1.v vt) = capT c vt := by
  rw [syncLoc_v_eq]
  cases vt with
  | bus =>
    rw [syncVehicle_v_other _ _ _ _ _ (by decide), syncVehicle_v_other _ _ _ _ _ (by decide),
      syncVehicle_total]
  | mobil =>
    rw [syncVehicle_v_other _ _ _ _ _ (by decide), syncVehicle_total]
  | motor =>
    rw [syncVehicle_total]

theorem syncLoc_nama (ver now : String) (c : ConfigLoc) (d : DataLoc) :
    (syncLoc ver now c d).1.nama = d.nama := by
  simp only [syncLoc]
  have h1 : ∀ x : DataLoc, ({ x with last_config_sync := now, config_version := ver } : DataLoc).nama = x.nama := fun _ => rfl
  rw [h1]
  split
  · rw [show ∀ (x : DataLoc) (a : String), ({ x with operational_hours := a } : DataLoc).nama = x.nama from fun _ _ => rfl]
    rw [syncVehicle_nama, syncVehicle_nama, syncVehicle_nama, syncBasicFields_nama]
  · rw [syncVehicle_nama, syncVehicle_nama, syncVehicle_nama, syncBasicFields_nama]

end ConfigSyncer
end Parkir

namespace Parkir
namespace ConfigSyncer

theorem pass1Locs_cons (ver now : String) (c : ConfigLoc) (cs : List ConfigLoc)
    (ls : List DataLoc) :
    pass1Locs ver now (c :: cs) ls =
      pass1Locs ver now cs
        (match ls.find? (fun l => l.nama = c.name) with
         | none => ls
         | some d => updateFirst (fun l => l.nama = c.name)
             (fun _ => (syncLoc ver now c d).1) ls) := rfl

theorem pass1_locations (ver now : String) (cs : List ConfigLoc)
    (st : Pass1State) :
    (cs.foldl (pass1Step ver now) st).locations =
      pass1Locs ver now cs st.locations := by
  induction cs generalizing st with
  | nil => rfl
  | cons c cs ih =>
    have hstep : (pass1Step ver now st c).locations =
        match st.locations.find? (fun l => l.nama = c.name) with
        | none => st.locations
        | some d => updateFirst (fun l => l.nama = c.name)
            (fun _ => (syncLoc ver now c d).1) st.locations := by
      cases hf : st.locations.find? (fun l => l.nama = c.name) with
      | none => simp [pass1Step, hf]
      | some d => simp [pass1Step, hf]
    rw [List.foldl_cons, ih, hstep, pass1Locs_cons]

theorem updateFirst_map_nama (p : DataLoc → Bool) (f : DataLoc → DataLoc)
    (ls : List DataLoc) (h : ∀ x ∈ ls, p x = true → (f x).nama = x.nama) :
    (updateFirst p f ls).map (fun l => l.nama) = ls.map (fun l => l.nama) := by
  induction ls with
  | nil => rfl
  | cons a as ih =>
    unfold updateFirst
    split
    case isTrue hp =>
      simp only [List.map_cons]
      rw [h a (List.mem_cons_self a as) hp]
    case isFalse hp =>
      simp only [List.map_cons]
      rw [ih (fun x hx hpx => h x (List.mem_cons_of_mem a hx) hpx)]

theorem mem_updateFirst {α : Type} (p : α → Bool) (f : α → α) (ls : List α)
    (x : α) (hx : x ∈ updateFirst p f ls) :
    x ∈ ls ∨ ∃ y ∈ ls, p y = true ∧ x = f y := by
  induction ls with
  | nil => exact absurd hx (by simp [updateFirst])
  | cons a as ih =>
    simp only [updateFirst] at hx
    split at hx
    case isTrue hp =>
      rcases List.mem_cons.mp hx with rfl | h
      · exact Or.inr ⟨a, List.mem_cons_self a as, hp, rfl⟩
      · exact Or.inl (List.mem_cons_of_mem a h)
    case isFalse hp =>
      rcases List.mem_cons.mp hx with heq | h
      · exact Or.inl (by rw [heq]; exact List.mem_cons_self a as)
      · rcases ih h with h1 | ⟨y, hy, hpy, rfl⟩
        · exact Or.inl (List.mem_cons_of_mem a h1)
        · exact Or.inr ⟨y, List.mem_cons_of_mem a hy, hpy, rfl⟩

theorem pass1Locs_mem_of_not_name (ver now : String) (cs : List ConfigLoc)
    (ls : List DataLoc) (l : DataLoc) (hl : l ∈ pass1Locs ver now cs ls)
    (hname : ∀ c ∈ cs, l.nama ≠ c.name) : l ∈ ls := by
  induction cs generalizing ls with
  | nil => exact hl
  | cons c cs ih =>
    rw [pass1Locs_cons] at hl
    cases hf : ls.find? (fun x => x.nama = c.name) with
    | none =>
      simp only [hf] at hl
      exact ih ls hl (fun c' hc' => hname c' (List.mem_cons_of_mem c hc'))
    | some d =>
      simp only [hf] at hl
      have h2 := ih _ hl (fun c' hc' => hname c' (List.mem_cons_of_mem c hc'))
      rcases mem_updateFirst _ _ _ _ h2 with h3 | ⟨y, hy, hpy, rfl⟩
      · exact h3
      · exfalso
        apply hname c (List.mem_cons_self c cs)
        rw [syncLoc_nama]
        exact by simpa using List.find?_some hf

theorem updateFirst_mem_name_eq (n : String) (f : DataLoc → DataLoc)
    (ls : List DataLoc) (d : DataLoc)
    (hnd : (ls.map (fun l => l.nama)).Nodup)
    (hf : ls.find? (fun l => l.nama = n) = some d)
    (x : DataLoc) (hx : x ∈ updateFirst (fun l => l.nama = n) f ls)
    (hxn : x.nama = n) : x = f d := by
  induction ls with
  | nil => simp at hf
  | cons a as ih =>
    by_cases ha : a.nama = n
    · rw [List.find?_cons_of_pos _ (by simpa using ha)] at hf
      obtain rfl : a = d := by simpa using hf
      unfold updateFirst at hx
      rw [if_pos (by simpa using ha)] at hx
      rcases List.mem_cons.mp hx with rfl | h
      · rfl
      · exfalso
        have : x.nama ∈ as.map (fun l => l.nama) := List.mem_map_of_mem _ h
        rw [hxn, ← ha] at this
        exact (List.nodup_cons.mp hnd).1 this
    · rw [List.find?_cons_of_neg _ (by simpa using ha)] at hf
      unfold updateFirst at hx
      rw [if_neg (by simpa using ha)] at hx
      rcases List.mem_cons.mp hx with rfl | h
      · exact absurd hxn ha
      · exact ih (List.nodup_cons.mp hnd).2 hf h

theorem updateFirst_find?_self {α : Type} (p : α → Bool) (ls : List α)
    (d : α) (hf : ls.find? p = some d) :
    updateFirst p (fun _ => d) ls = ls := by
  induction ls with
  | nil => rfl
  | cons a as ih =>
    by_cases ha : p a
    · rw [List.find?_cons_of_pos _ ha] at hf
      obtain rfl : a = d := by simpa using hf
      unfold updateFirst
      rw [if_pos ha]
    · rw [List.find?_cons_of_neg _ ha] at hf
      unfold updateFirst
      rw [if_neg ha, ih hf]

theorem pass1Locs_good (ver now : String) :
    ∀ (cs : List ConfigLoc) (ls : List DataLoc),
    (cs.map (fun c => c.name)).Nodup → (ls.map (fun l => l.nama)).Nodup →
    ∀ c ∈ cs, ∀ l ∈ pass1Locs ver now cs ls, l.nama = c.name →
    ∀ vt, vTotal (l.v vt) = capT c vt := by
  intro cs
  induction cs with
  | nil => intro ls _ _ c hc; exact absurd hc (by simp)
  | cons c₀ cs ih =>
    intro ls hcs hls c hc l hl hname vt
    rw [pass1Locs_cons] at hl
    have hls' : ((match ls.find? (fun x => x.nama = c₀.name) with
        | none => ls
        | some d => updateFirst (fun x => x.nama = c₀.name)
            (fun _ => (syncLoc ver now c₀ d).1) ls : List DataLoc).map
          (fun l : DataLoc => l.nama)) =
        ls.map (fun l : DataLoc => l.nama) := by
      cases hf : ls.find? (fun x => x.nama = c₀.name) with
      | none => rfl
      | some d =>
        apply updateFirst_map_nama
        intro x hx hpx
        rw [syncLoc_nama]
        have hd : d.nama = c₀.name := by simpa using List.find?_some hf
        have hx' : x.nama = c₀.name := by simpa using hpx
        rw [hd, hx']
    rcases List.mem_cons.mp hc with rfl | hc'
    · have hnotin : ∀ c' ∈ cs, l.nama ≠ c'.name := by
        intro c' hc' heq
        rw [List.map_cons] at hcs
        apply (List.nodup_cons.mp hcs).1
        refine List.mem_map.mpr ⟨c', hc', ?_⟩
        exact heq.symm.trans hname
      have hmem := pass1Locs_mem_of_not_name ver now cs _ l hl hnotin
      cases hf : ls.find? (fun x => x.nama = c.name) with
      | none =>
        simp only [hf] at hmem
        exfalso
        have := List.find?_eq_none.mp hf l hmem
        simp [hname] at this
      | some d =>
        simp only [hf] at hmem
        have hx := updateFirst_mem_name_eq c.name _ ls d hls hf l hmem hname
        rw [hx, syncLoc_total]
    · have hcs' := (List.nodup_cons.mp hcs).2
      have hls'' : (((match ls.find? (fun x => x.nama = c₀.name) with
          | none => ls
          | some d => updateFirst (fun x => x.nama = c₀.name)
              (fun _ => (syncLoc ver now c₀ d).1) ls : List DataLoc)).map
            (fun l : DataLoc => l.nama)).Nodup := by
        rw [hls']
        exact hls
      exact ih _ hcs' hls'' c hc' l hl hname vt

end ConfigSyncer
end Parkir

namespace Parkir
namespace ConfigSyncer

theorem pass2Fold_noop (ds : List DataLoc) (cls : List ConfigLoc)
    (us : List ConfigUpdate) (es : List SyncError)
    (h : ∀ d ∈ ds, ∀ c, cls.find? (fun x => x.name = d.nama) = some c →
      ∀ vt, vTotal (d.v vt) = capT c vt) :
    ∃ us' es', pass2Fold ds ⟨cls, us, es⟩ = .ok ⟨cls, us', es'⟩ := by
  induction ds generalizing us es with
  | nil => exact ⟨us, es, rfl⟩
  | cons d ds ih =>
    cases hf : cls.find? (fun c => c.name = d.nama) with
    | none =>
      have hstep : pass2Step ⟨cls, us, es⟩ d =
          .ok ⟨cls, us, es ++ [.notFoundInConfig d.nama]⟩ := by
        simp [pass2Step, hf]
      unfold pass2Fold
      rw [hstep]
      exact ih us (es ++ [.notFoundInConfig d.nama])
        (fun d' hd' => h d' (List.mem_cons_of_mem d hd'))
    | some c =>
      have htot := h d (List.mem_cons_self d ds) c hf
      have hv : ∀ vt, pass2Vehicle d c vt = .ok (c, []) := by
        intro vt
        simp only [pass2Vehicle]
        rw [if_neg (not_ne_iff.mpr (htot vt))]
      have hloc : pass2Loc d c = .ok (c, []) := by
        simp [pass2Loc, hv]
      have hstep : pass2Step ⟨cls, us, es⟩ d = .ok ⟨cls, us ++ [], es⟩ := by
        simp only [pass2Step, hf, hloc]
        rw [updateFirst_find?_self _ cls c hf]
      unfold pass2Fold
      rw [hstep]
      exact ih (us ++ []) es (fun d' hd' => h d' (List.mem_cons_of_mem d hd'))

theorem configOnDiskAfterD2C_locations (config : ConfigDoc) (data : DataDoc)
    (now : String)
    (h : ∀ d ∈ data.locations, ∀ c,
      config.locations.find? (fun x => x.name = d.nama) = some c →
      ∀ vt, vTotal (d.v vt) = capT c vt) :
    (configOnDiskAfterD2C config data now).locations = config.locations := by
  obtain ⟨us', es', hfold⟩ := pass2Fold_noop data.locations config.locations [] [] h
  simp only [configOnDiskAfterD2C, syncDataToConfig]
  rw [hfold]
  cases htot : calculateTotalCapacities config.locations ⟨0, 0, 0, 0⟩ with
  | error e => simp [htot]
  | ok totals => simp [htot]

end ConfigSyncer
end Parkir

namespace Parkir

namespace ConfigSyncer

theorem syncConfigToData_locations (config : ConfigDoc) (data : DataDoc)
    (now : String) :
    (syncConfigToData config data now).data.locations =
      pass1Locs config.version now config.locations data.locations := by
  simp only [syncConfigToData]
  rw [pass1_locations]

theorem filter_flatten_nil {α : Type} (p : α → Bool) (ls : List (List α))
    (h : ∀ l ∈ ls, l.filter p = []) : ls.flatten.filter p = [] := by
  induction ls with
  | nil => rfl
  | cons a as ih =>
    rw [List.flatten_cons, List.filter_append, h a (List.mem_cons_self a as),
      ih (fun l hl => h l (List.mem_cons_of_mem a hl))]
    rfl

theorem validateLoc_no_capacity (data1 : DataDoc) (c : ConfigLoc)
    (h : ∀ d, data1.locations.find? (fun l => l.nama = c.name) = some d →
      ∀ vt, vTotal (d.v vt) = capT c vt) :
    (validateLoc data1 c).filter isCapacityMismatch = [] := by
  unfold validateLoc
  cases hf : data1.locations.find? (fun l => l.nama = c.name) with
  | none => rfl
  | some d =>
    have ht := h d hf
    simp only []
    rw [if_neg (not_ne_iff.mpr (ht .bus).symm),
      if_neg (not_ne_iff.mpr (ht .mobil).symm),
      if_neg (not_ne_iff.mpr (ht .motor).symm)]
    split_ifs <;> rfl

end ConfigSyncer

/-- C4 (amended): provided each location name occurs at most once in the
Data document and at most once in the Configuration, running Config→Data
(`syncConfigToData`) and then Data→Config (`syncDataToConfig`, whose
written configuration is `configOnDiskAfterD2C` — the input configuration
when the pass throws) leaves `validateSync` with zero per-location capacity
inconsistencies.  Without the uniqueness proviso the claim is false (see
the counterexample with a duplicated data-location name). -/
theorem sync_roundtrip_no_capacity_mismatch (config : ConfigDoc)
    (data : DataDoc) (now₁ now₂ : String)
    (hd : (data.locations.map (fun l => l.nama)).Nodup)
    (hc : (config.locations.map (fun c => c.name)).Nodup) :
    ((ConfigSyncer.validateSync
        (ConfigSyncer.configOnDiskAfterD2C config
          (ConfigSyncer.syncConfigToData config data now₁).data now₂)
        (ConfigSyncer.syncConfigToData config data now₁).data).filter
      ConfigSyncer.isCapacityMismatch) = [] := by
  have hlocs := ConfigSyncer.syncConfigToData_locations config data now₁
  set data1 := (ConfigSyncer.syncConfigToData config data now₁).data
  have hgood : ∀ d ∈ data1.locations, ∀ c,
      config.locations.find? (fun x => x.name = d.nama) = some c →
      ∀ vt, vTotal (d.v vt) = capT c vt := by
    intro d hdm c hf vt
    have hc_mem : c ∈ config.locations := List.mem_of_find?_eq_some hf
    have hc_name : c.name = d.nama := by simpa using List.find?_some hf
    exact ConfigSyncer.pass1Locs_good config.version now₁ config.locations
      data.locations hc hd c hc_mem d (hlocs ▸ hdm) hc_name.symm vt
  have hdisk := ConfigSyncer.configOnDiskAfterD2C_locations config data1 now₂ hgood
  unfold ConfigSyncer.validateSync
  simp only [List.filter_append]
  have h2 : (((ConfigSyncer.configOnDiskAfterD2C config data1 now₂).locations.map
      (ConfigSyncer.validateLoc data1)).flatten).filter
      ConfigSyncer.isCapacityMismatch = [] := by
    rw [hdisk]
    apply ConfigSyncer.filter_flatten_nil
    intro l hl
    obtain ⟨c, hcm, rfl⟩ := List.mem_map.mp hl
    apply ConfigSyncer.validateLoc_no_capacity
    intro d hf vt
    have hdm : d ∈ data1.locations := List.mem_of_find?_eq_some hf
    have hdn : d.nama = c.name := by simpa using List.find?_some hf
    exact ConfigSyncer.pass1Locs_good config.version now₁ config.locations
      data.locations hc hd c hcm d (hlocs ▸ hdm) hdn vt
  rw [h2]
  split_ifs <;> rfl

theorem sync_roundtrip_no_capacity_mismatch_witness :
    ((c4wData.locations.map (fun l => l.nama)).Nodup ∧
      (c4wConfig.locations.map (fun c => c.name)).Nodup) ∧
    ((ConfigSyncer.validateSync
        (ConfigSyncer.configOnDiskAfterD2C c4wConfig
          (ConfigSyncer.syncConfigToData c4wConfig c4wData "T1").data "T2")
        (ConfigSyncer.syncConfigToData c4wConfig c4wData "T1").data).filter
      ConfigSyncer.isCapacityMismatch) = [] :=
  ⟨⟨by decide, by decide⟩,
   sync_roundtrip_no_capacity_mismatch c4wConfig c4wData "T1" "T2"
     (by decide) (by decide)⟩

/-- C4 counterexample: with a Configuration location "A" (bus capacity 10)
and a Data document containing two locations named "A" (bus totals 10 and
5), Config→Data followed by Data→Config leaves a per-location capacity
mismatch (config 5 vs data 10) for the matched location "A": pass 1 only
updates the first "A", pass 2 copies the second "A"'s total into the
configuration. -/
theorem sync_duplicate_names_capacity_mismatch_cex :
    ConfigSyncer.Inconsistency.capacityMismatch "A" .bus 5 10 ∈
      ConfigSyncer.validateSync
        (ConfigSyncer.configOnDiskAfterD2C c4Config
          (ConfigSyncer.syncConfigToData c4Config c4Data "T1").data "T2")
        (ConfigSyncer.syncConfigToData c4Config c4Data "T1").data ∧
    (c4Config.locations.map (fun c => c.name)) = ["A"] ∧
    (c4Data.locations.map (fun l => l.nama)) = ["A", "A"] := by
  refine ⟨?_, by decide, by decide⟩
  decide

end Parkir

namespace Parkir

open EmergencyRecovery in
/-- C5: when the data file is missing and `getLatestBackup` locates a
valid backup (via the pointer or the filename scan), `autoRecover`
succeeds at rung 1 (backup restore) with a trace consisting of that single
attempt — rung 4 is never executed; and over every environment the attempt
trace is a subsequence of the ladder (each rung at most once, in order)
in which every attempt before the last failed (the procedure stops at the
first success). -/
theorem autoRecover_backup_first (env : RecEnv) (b : Backup)
    (hmiss : env.dataFile = .missing)
    (hb : getLatestBackup env = some b) (hv : b.valid = true) :
    autoRecover env =
      { needed := true, method := some .backupRestore
        trace := [(.backupRestore, true)]
        env := { env with dataFile := b.payload } } ∧
    ∀ env' : RecEnv,
      ((autoRecover env').trace.map Prod.fst).Sublist
        [Rung.backupRestore, .githubRecovery, .capacityReset, .emergencyData] ∧
      ∀ p ∈ (autoRecover env').trace.dropLast, p.2 = false := by
  constructor
  · simp [autoRecover, hmiss, hb, restoreFromBackup, hv, checkValid]
  · intro env'
    unfold autoRecover rung2 rung3 rung4
    simp only [recoverFromGitHub, resetToFullCapacity, restoreFromBackup, createEmergencyData]
    repeat' split
    all_goals refine ⟨?_, ?_⟩
    all_goals simp only [List.map_cons, List.map_nil, List.map_append, List.nil_append,
      List.cons_append, List.append_nil]
    all_goals decide

/-- C5 witness. -/
theorem autoRecover_backup_first_witness :
    c5Env.dataFile = .missing ∧
    EmergencyRecovery.getLatestBackup c5Env =
      some { valid := true, ts := 5, payload := .good } ∧
    (({ valid := true, ts := 5, payload := .good } : EmergencyRecovery.Backup).valid = true) ∧
    (EmergencyRecovery.autoRecover c5Env =
      { needed := true, method := some .backupRestore
        trace := [(.backupRestore, true)]
        env := { c5Env with dataFile := DataFileStatus.good } } ∧
    ∀ env' : EmergencyRecovery.RecEnv,
      ((EmergencyRecovery.autoRecover env').trace.map Prod.fst).Sublist
        [EmergencyRecovery.Rung.backupRestore, .githubRecovery, .capacityReset, .emergencyData] ∧
      ∀ p ∈ (EmergencyRecovery.autoRecover env').trace.dropLast, p.2 = false) :=
  ⟨rfl, rfl, rfl,
   autoRecover_backup_first c5Env { valid := true, ts := 5, payload := .good } rfl rfl rfl⟩

end Parkir

namespace Parkir

/-- C8 (amended): the consistency-verification entry point exits with code
1 exactly when one of the two input files fails to load; when both load it
still computes all five checks and their overall success flag, but exits 0
regardless of that flag (the CLI never inspects `run`'s result). -/
theorem verifier_exit_code_ignores_checks (oc : Option ConfigDoc)
    (od : Option DataDoc) :
    ((ConsistencyVerifier.mainEntry oc od).1 = 1 ↔ (oc.isNone ∨ od.isNone)) ∧
    (∀ (c : ConfigDoc) (d : DataDoc),
      ConsistencyVerifier.mainEntry (some c) (some d) =
        (0, some (ConsistencyVerifier.run c d))) := by
  constructor
  · cases oc <;> cases od <;> simp [ConsistencyVerifier.mainEntry]
  · intro c d
    rfl

/-- C8 counterexample: both files load, the location-count check fails
(config has 1 location, data has 0), `run` reports overall failure — yet
the process exit code is 0, refuting "exits with code 1 whenever any of
its consistency checks finds unresolved failures". -/
theorem verifier_exit_zero_on_failed_checks_cex :
    (ConsistencyVerifier.mainEntry (some c8Config) (some c8Data)).1 = 0 ∧
    (ConsistencyVerifier.run c8Config c8Data).2 = false :=
  ⟨rfl, by rfl⟩

end Parkir

namespace Parkir

/-- C9 (amended): `verifyBackup` reports a backup valid exactly when the
file is non-empty, decompresses and parses, and both wrapper fields
`metadata` and `data` are present *with truthy values*; a field that is
absent — or present but bound to `null`, `false`, `0` or `""` — makes the
verdict invalid. -/
theorem verifyBackup_valid_iff (f : BackupFile) :
    BackupManager.verifyBackup f = true ↔
      (f.size ≠ 0 ∧ ∃ j, f.content = some j ∧
        jsTruthyOpt (j.get "metadata") = true ∧
        jsTruthyOpt (j.get "data") = true) := by
  unfold BackupManager.verifyBackup
  split
  case isTrue h => simp [h]
  case isFalse h =>
    cases hc : f.content with
    | none => simp [h, hc]
    | some j =>
      simp only [List.all_cons, List.all_nil, Bool.and_true, Bool.and_eq_true]
      constructor
      · rintro ⟨h1, h2⟩
        exact ⟨h, j, rfl, h1, h2⟩
      · rintro ⟨-, j', hj', h1, h2⟩
        obtain rfl : j = j' := (Option.some.injEq ..).mp hj'
        exact ⟨h1, h2⟩

/-- C9 counterexample: a non-empty, parseable backup whose wrapper fields
are both present (so by the claim all checks pass and it should be valid),
yet `verifyBackup` reports it invalid because `metadata` is `null` — the
code tests truthiness, not presence. -/
theorem verifyBackup_falsy_metadata_cex :
    BackupManager.verifyBackup c9File = false ∧
    c9File.size ≠ 0 ∧
    (c9File.content.map (fun j =>
      (j.get "metadata").isSome && (j.get "data").isSome)) = some true :=
  ⟨rfl, by decide, rfl⟩

end Parkir


namespace Parkir
namespace UpdatesValidator

theorem jsTrim_length_le (s : String) : (jsTrim s).length ≤ s.length := by
  show (((s.data.dropWhile Char.isWhitespace).reverse.dropWhile
    Char.isWhitespace).reverse).length ≤ s.data.length
  rw [List.length_reverse]
  calc ((s.data.dropWhile Char.isWhitespace).reverse.dropWhile
        Char.isWhitespace).length
      ≤ (s.data.dropWhile Char.isWhitespace).reverse.length :=
        (List.dropWhile_sublist _).length_le
    _ = (s.data.dropWhile Char.isWhitespace).length := List.length_reverse _
    _ ≤ s.data.length := (List.dropWhile_sublist _).length_le

theorem checkVehicle_nonneg (strict : Bool) (li : Option LocInfo) (vt : VT)
    (v : Option Int)
    (h : (checkVehicle strict li vt v).2.1 = []) :
    ∀ b, (checkVehicle strict li vt v).1 = some b → 0 ≤ b := by
  intro b hb
  cases v with
  | none => simp [checkVehicle] at hb
  | some a =>
    simp only [checkVehicle] at h hb
    by_cases ha : a < 0
    · rw [if_pos ha] at h; simp at h
    · rw [if_neg ha] at hb
      cases li with
      | none =>
        simp only [Option.some.injEq] at hb
        omega
      | some info =>
        simp only at hb
        split at hb
        · rename_i hcond
          split at hb <;> simp only [Option.some.injEq] at hb <;> omega
        · simp only [Option.some.injEq] at hb
          omega

theorem truncNotes_length (n : Option String) :
    ∀ s, (truncNotes n).1 = some s → s.length ≤ 500 := by
  intro s hs
  simp only [truncNotes] at hs
  cases n with
  | none => simp at hs
  | some s0 =>
    simp only at hs
    split at hs
    · simp only [Option.some.injEq] at hs
      subst hs
      show (s0.data.take 500).length ≤ 500
      rw [List.length_take]
      omega
    · rename_i hcond
      simp only [Option.some.injEq] at hs
      subst hs
      rcases Decidable.not_and_iff_or_not.mp hcond with h1 | h2
      · simp only [ne_eq, not_not] at h1
        rw [h1]
        decide
      · omega

theorem reqLocationId_nil (i : Option Int) (h : reqLocationId i = []) :
    ∃ j, i = some j ∧ j ≠ 0 := by
  cases i with
  | none => simp [reqLocationId] at h
  | some j =>
    refine ⟨j, rfl, ?_⟩
    simp only [reqLocationId] at h
    intro hj
    rw [if_pos hj] at h
    simp at h

theorem locExists_nil (dataLocs : List DataLoc) (j : Int)
    (h : locExists dataLocs (some j) = []) (hj : j ≠ 0) :
    j ∈ validLocations dataLocs := by
  simp only [locExists] at h
  by_contra hmem
  rw [if_pos ⟨hj, hmem⟩] at h
  simp at h

theorem validateOne_errors_nil (strict : Bool) (dataLocs : List DataLoc)
    (configLocs : List ConfigLoc) (parseDate : String → Option Int)
    (now : Int) (u : PendingUpdate)
    (h : (validateOne strict dataLocs configLocs parseDate now u).1 = []) :
    (∃ i, u.location_id = some i ∧ i ≠ 0 ∧ i ∈ validLocations dataLocs) ∧
      (validateOne strict dataLocs configLocs parseDate now
        u).2.2.location_id = u.location_id ∧
      (∀ b, (validateOne strict dataLocs configLocs parseDate now u).2.2.bus
        = some b → 0 ≤ b) ∧
      (∀ b, (validateOne strict dataLocs configLocs parseDate now
        u).2.2.mobil = some b → 0 ≤ b) ∧
      (∀ b, (validateOne strict dataLocs configLocs parseDate now
        u).2.2.motor = some b → 0 ≤ b) ∧
      (∀ s, (validateOne strict dataLocs configLocs parseDate now
        u).2.2.notes = some s → s.length ≤ 500) := by
  simp only [validateOne, List.append_eq_nil] at h ⊢
  obtain ⟨⟨⟨⟨⟨⟨h1, h2⟩, h3⟩, hb⟩, hm⟩, ho⟩, ht⟩ := h
  obtain ⟨j, hj, hj0⟩ := reqLocationId_nil u.location_id h1
  refine ⟨⟨j, hj, hj0, ?_⟩, trivial, ?_, ?_, ?_, ?_⟩
  · exact locExists_nil dataLocs j (hj ▸ h3) hj0
  · exact checkVehicle_nonneg _ _ _ _ hb
  · exact checkVehicle_nonneg _ _ _ _ hm
  · exact checkVehicle_nonneg _ _ _ _ ho
  · exact truncNotes_length _

theorem cleanUpdate_notes (dataLocs : List DataLoc)
    (configLocs : List ConfigLoc) (nowIso : String) (u : PendingUpdate)
    (w : List UWarn) :
    ∀ s, (cleanUpdate dataLocs configLocs nowIso u w).notes = some s →
      ∃ s0, u.notes = some s0 ∧ s = jsTrim s0 := by
  intro s hs
  simp only [cleanUpdate] at hs
  cases hn : u.notes with
  | none => rw [hn] at hs; simp at hs
  | some s0 =>
    rw [hn] at hs
    simp only at hs
    split at hs
    · simp at hs
    · simp only [Option.some.injEq] at hs
      exact ⟨s0, rfl, hs.symm⟩

theorem length_filterMap_sum (l : List (Sum CleanedUpdate InvalidEntry)) :
    (l.filterMap sumLeft).length + (l.filterMap sumRight).length
      = l.length := by
  induction l with
  | nil => rfl
  | cons a t ih =>
    cases a <;> simp [List.filterMap_cons, sumLeft, sumRight] <;> omega

end UpdatesValidator

open UpdatesValidator in
/-- C10.  After the pending-updates validation routine processes the
queue, every entry of the rewritten pending-updates file passed
validation: its location_id is a non-falsy number present in the Data
document, its bus/mobil/motor values (when present) are non-negative, and
its notes are at most 500 characters long; every rejected entry is
archived together with its non-empty error list, and the two outputs
partition the queue.  (The claim's further assertion that every written
entry has a non-empty petugas_name is refuted separately: a
whitespace-only name passes the truthiness check and is trimmed to the
empty string afterwards.) -/
theorem updates_validator_partition_and_invariants (strict : Bool)
    (dataLocs : List DataLoc) (configLocs : List ConfigLoc)
    (parseDate : String → Option Int) (now : Int) (nowIso : String)
    (updates : List PendingUpdate) :
    (∀ c ∈ (validateAndCleanUpdates strict dataLocs configLocs parseDate
        now nowIso updates).written,
      (∃ i, c.location_id = some i ∧ i ≠ 0 ∧ i ∈ validLocations dataLocs) ∧
      (∀ b, c.bus = some b → 0 ≤ b) ∧
      (∀ b, c.mobil = some b → 0 ≤ b) ∧
      (∀ b, c.motor = some b → 0 ≤ b) ∧
      (∀ s, c.notes = some s → s.length ≤ 500)) ∧
    (∀ e ∈ (validateAndCleanUpdates strict dataLocs configLocs parseDate
        now nowIso updates).archived, e.errors ≠ []) ∧
    (validateAndCleanUpdates strict dataLocs configLocs parseDate now
        nowIso updates).written.length +
      (validateAndCleanUpdates strict dataLocs configLocs parseDate now
        nowIso updates).archived.length = updates.length := by
  refine ⟨?_, ?_, ?_⟩
  · intro c hc
    simp only [validateAndCleanUpdates, List.mem_filterMap,
      List.mem_map] at hc
    obtain ⟨r, ⟨u, hu, hfu⟩, hg⟩ := hc
    by_cases he : (validateOne strict dataLocs configLocs parseDate now
        u).1 = []
    · rw [validateStep, if_pos he] at hfu
      rw [← hfu] at hg
      simp only [sumLeft, Option.some.injEq] at hg
      obtain ⟨⟨i, hi, hi0, himem⟩, hloc, hbus, hmob, hmot, hnot⟩ :=
        validateOne_errors_nil strict dataLocs configLocs parseDate now
          u he
      rw [← hg]
      refine ⟨⟨i, ?_, hi0, himem⟩, ?_, ?_, ?_, ?_⟩
      · show (cleanUpdate dataLocs configLocs nowIso _ _).location_id
          = some i
        rw [show (cleanUpdate dataLocs configLocs nowIso
          (validateOne strict dataLocs configLocs parseDate now u).2.2
          (validateOne strict dataLocs configLocs parseDate now
            u).2.1).location_id = (validateOne strict dataLocs configLocs
          parseDate now u).2.2.location_id from rfl, hloc, hi]
      · exact hbus
      · exact hmob
      · exact hmot
      · intro str hstr
        obtain ⟨s0, hs0, hstr'⟩ := cleanUpdate_notes dataLocs configLocs
          nowIso _ _ str hstr
        rw [hstr']
        exact le_trans (jsTrim_length_le s0) (hnot s0 hs0)
    · rw [validateStep, if_neg he] at hfu
      rw [← hfu] at hg
      simp [sumLeft] at hg
  · intro e hee
    simp only [validateAndCleanUpdates, List.mem_filterMap,
      List.mem_map] at hee
    obtain ⟨r, ⟨u, hu, hfu⟩, hg⟩ := hee
    by_cases he : (validateOne strict dataLocs configLocs parseDate now
        u).1 = []
    · rw [validateStep, if_pos he] at hfu
      rw [← hfu] at hg
      simp [sumRight] at hg
    · rw [validateStep, if_neg he] at hfu
      rw [← hfu] at hg
      simp only [sumRight, Option.some.injEq] at hg
      rw [← hg]
      exact he
  · simp only [validateAndCleanUpdates]
    rw [length_filterMap_sum]
    simp

end Parkir

namespace Parkir

open UpdatesValidator in
/-- C10 counterexample: the update `c10Upd` carries the whitespace-only
petugas_name " "; it passes validation (no entry is archived) and the
rewritten pending-updates file contains exactly one entry, whose
petugas_name is the empty string — refuting the claim that every written
entry has a non-empty petugas_name. -/
theorem updates_validator_empty_petugas_cex :
    ((validateAndCleanUpdates false [c10Loc] [] (fun _ => none) 0 "T"
        [c10Upd]).written.map (fun c => c.petugas_name) = [""]) ∧
      (validateAndCleanUpdates false [c10Loc] [] (fun _ => none) 0 "T"
        [c10Upd]).archived = [] :=
  ⟨rfl, rfl⟩

open UpdatesValidator in
/-- Witness: the partition invariants instantiated on the concrete queue
`[c10wUpd]`, whose single entry is written as `c10wOut`. -/
theorem updates_validator_partition_and_invariants_witness :
    c10wOut ∈ (validateAndCleanUpdates false [c10Loc] [] (fun _ => none)
        0 "T" [c10wUpd]).written ∧
      (∃ i, c10wOut.location_id = some i ∧ i ≠ 0 ∧
        i ∈ validLocations [c10Loc]) ∧
      (∀ b, c10wOut.bus = some b → 0 ≤ b) :=
  have hw : (validateAndCleanUpdates false [c10Loc] [] (fun _ => none)
      0 "T" [c10wUpd]).written = [c10wOut] := by decide
  have hmem : c10wOut ∈ (validateAndCleanUpdates false [c10Loc] []
      (fun _ => none) 0 "T" [c10wUpd]).written := by
    rw [hw]; exact List.mem_singleton.mpr rfl
  have h := (updates_validator_partition_and_invariants false [c10Loc] []
    (fun _ => none) 0 "T" [c10wUpd]).1 c10wOut hmem
  ⟨hmem, h.1, h.2.1⟩

end Parkir
